import Mathlib

/-!
# GoProControl: a shallow embedding of `src/GoProControl.cpp`

The client is a record of its member variables.  Every member function becomes
a pure function from the client (and the answers the environment gives during
the call) to a `Result`: the `uint8_t` it returns, the client afterwards, and
the list of calls it made on the WiFi and HTTP capabilities, in order, with a
mark where it went through the debug port while that pointer was unset.

* `uint8_t` return values are natural numbers; `return -1` is `uint8 (-1)`,
  that is `-1` reduced modulo `256`.
* The constants of `GoProControl.h` (camera models, option enumerators,
  `_host`, `_port`, `KEEP_ALIVE`) and of the WiFi library (`WL_*`) are not part
  of the translated file; they are the fields of `Consts`.
* Printing on `_debug_port` has no effect on the client or on the WiFi and
  HTTP capabilities.  A print under `if (_debug)` is left out: `_debug` is
  set only by `enableDebug`, which sets `_debug_port` with it.  A print that
  is not under `if (_debug)` goes through `_debug_port` whether or not it was
  ever set; where it is unset the call records `Event.debugPortUnset`, and
  the behaviour of the program is undefined from that point on: the value and
  client such a result carries are those of the statements that follow in the
  source.
-/

set_option linter.dupNamespace false

namespace GoPro

/-- The constants the translated file takes from its header and from the WiFi
library.  Each field carries the name of the constant it stands for;
`_host`, `_port`, `_last_request` and `_debug_port` are the initial values
the header gives the members of these names (`none` for a pointer that its
declaration leaves unset). -/
structure Consts where
  _host : String
  _port : Nat
  _last_request : Nat
  _debug_port : Option Nat
  KEEP_ALIVE : Nat
  HERO2 : Nat
  HERO3 : Nat
  HERO4 : Nat
  WL_IDLE_STATUS : Nat
  WL_CONNECTED : Nat
  WL_CONNECT_FAILED : Nat
  VIDEO_MODE : Nat
  PHOTO_MODE : Nat
  BURST_MODE : Nat
  TIMELAPSE_MODE : Nat
  TIMER_MODE : Nat
  PLAY_HDMI_MODE : Nat
  MULTISHOT_MODE : Nat
  ORIENTATION_UP : Nat
  ORIENTATION_DOWN : Nat
  ORIENTATION_AUTO : Nat
  VR_4K : Nat
  VR_2K : Nat
  VR_2K_SuperView : Nat
  VR_1440p : Nat
  VR_1080p_SuperView : Nat
  VR_1080p : Nat
  VR_960p : Nat
  VR_720p_SuperView : Nat
  VR_720p : Nat
  VR_WVGA : Nat
  WIDE_FOV : Nat
  MEDIUM_FOV : Nat
  NARROW_FOV : Nat
  LINEAR_FOV : Nat
  FR_240 : Nat
  FR_120 : Nat
  FR_100 : Nat
  FR_90 : Nat
  FR_80 : Nat
  FR_60 : Nat
  FR_50 : Nat
  FR_48 : Nat
  FR_30 : Nat
  FR_25 : Nat
  FR_24 : Nat
  FR_15 : Nat
  FR_12p5 : Nat
  FR_12 : Nat
  NTSC : Nat
  PAL : Nat
  PR_12MP_WIDE : Nat
  PR_12MP_LINEAR : Nat
  PR_12MP_MEDIUM : Nat
  PR_12MP_NARROW : Nat
  PR_11MP_WIDE : Nat
  PR_8MP_WIDE : Nat
  PR_7MP_WIDE : Nat
  PR_7MP_MEDIUM : Nat
  PR_5MP_WIDE : Nat

/-- The member variables of a `GoProControl` object that the member functions
read or write. -/
structure GoProControl where
  _ssid : String
  _pwd : String
  _camera : Nat
  _url : String
  _connected : Bool
  _last_request : Nat
  _debug_port : Option Nat
deriving DecidableEq, Repr

/-- A call made on one of the consumed capabilities, or a call through the
pointer `_debug_port` made while that pointer is unset. -/
inductive Event where
  | wifiBegin (ssid pwd : String)
  | wifiDisconnect
  | clientStop
  | clientConnect (host : String) (port : Nat)
  | httpGet (request : String)
  | debugPortUnset
deriving DecidableEq, Repr

/-- What the environment answers during one call of a member function. -/
structure Env where
  /-- The result of `_client.connect(_host, _port)`. -/
  connect : Bool
  /-- The value `_http.responseStatusCode()` returns. -/
  responseStatusCode : Nat
  /-- The value `millis()` returns. -/
  millis : Nat
  /-- The value the `k`-th call of `WiFi.status()` returns, counted from `0`. -/
  wifiStatus : Nat → Nat
  /-- The value read where the source leaves one indeterminate. -/
  indeterminate : Nat

/-- The outcome of one call: returned `uint8_t`, client afterwards, capability
calls made (and calls through an unset `_debug_port`). -/
structure Result where
  ret : Nat
  state : GoProControl
  trace : List Event
deriving DecidableEq, Repr

/-- Conversion of an `int` to `uint8_t`. -/
def uint8 (x : Int) : Nat := (x % 256).toNat

/-- Conversion of an `int` status to the `uint16_t` it is stored in. -/
def uint16 (x : Nat) : Nat := x % 65536

/-- A `return v;` that made no capability call and left the client as is. -/
def ret (g : GoProControl) (v : Int) : Result := ⟨uint8 v, g, []⟩

/-- A `_debug_port->println(...)` that is not under `if (_debug)`: nothing to
record when the pointer is set, a call through an unset pointer otherwise. -/
def debugPrint (g : GoProControl) : List Event :=
  match g._debug_port with
  | some _ => []
  | none => [Event.debugPortUnset]

/-- An unguarded `_debug_port->println(...)` followed by `return v;`. -/
def printRet (g : GoProControl) (v : Int) : Result := ⟨uint8 v, g, debugPrint g⟩

/-- Modelled from the spec: the initial value of the member `_connected`,
which the header declares.  The session starts in the state Disconnected. -/
def _connected_initial : Bool := false

/-- The constructor: stores its arguments and chooses `_url` by camera
generation.  The members it does not assign keep the initial values of their
declarations. -/
def GoProControl.GoProControl (c : Consts) (ssid pwd : String) (camera : Nat) : GoProControl :=
  { _ssid := ssid
    _pwd := pwd
    _camera := camera
    _url :=
      if camera = c.HERO3 then "http://" ++ c._host ++ "/camera/"
      else if camera ≥ c.HERO4 then "http://" ++ c._host ++ "/gp/gpControl/"
      else ""
    _connected := _connected_initial
    _last_request := c._last_request
    _debug_port := c._debug_port }

/-- The member `enableDebug`: sets `_debug_port` (and `_debug`). -/
def enableDebug (g : GoProControl) (debug_port : Nat) : GoProControl :=
  { g with _debug_port := some debug_port }

/-- The member `getStatus`. -/
def getStatus (g : GoProControl) : Nat := if g._connected then 1 else 0

/-- The member `checkConnection`. -/
def checkConnection (g : GoProControl) : Nat :=
  if getStatus g ≠ 0 then uint8 1 else uint8 0

/-- The member `isOn`. -/
def isOn (_g : GoProControl) : Nat := uint8 1

/-- The member `sendRequest`. -/
def sendRequest (c : Consts) (e : Env) (g : GoProControl) (request : String) : Result :=
  if !e.connect then
    ⟨uint8 0, { g with _connected := false }, [Event.clientConnect c._host c._port]⟩
  else
    let response := uint16 e.responseStatusCode
    let g1 := { g with _last_request := e.millis }
    let tr := [Event.clientConnect c._host c._port, Event.httpGet request]
    if response = 200 then ⟨uint8 1, g1, tr⟩
    else if response = 403 then ⟨uint8 (-1), g1, tr⟩
    else if response = 410 then ⟨uint8 (-2), g1, tr⟩
    else ⟨uint8 (-3), g1, tr⟩

/-- A C `switch` whose cases assign a token to `parameter` and `break`: the
token of the first case label equal to `option`, or `none` when control
reaches `default`. -/
def switch (option : Nat) : List (Nat × String) → Option String
  | [] => none
  | (label, parameter) :: rest => if option = label then some parameter else switch option rest

/-- The member `confirmPairing`. -/
def confirmPairing (c : Consts) (e : Env) (g : GoProControl) : Result :=
  if checkConnection g = 0 then ret g 0
  else if g._camera = c.HERO3 then sendRequest c e g (g._url ++ "DL?t=" ++ g._pwd)
  else if g._camera ≥ c.HERO4 then
    sendRequest c e g (g._url ++ "command/wireless/pair/complete?success=1&deviceName=ESPBoard")
  else sendRequest c e g ""

/-- The member `turnOn`. -/
def turnOn (c : Consts) (e : Env) (g : GoProControl) : Result :=
  if checkConnection g = 0 then ret g 0
  else if isOn g ≠ 0 then ret g 0
  else if g._camera = c.HERO3 then sendRequest c e g (g._url ++ "PW?t=" ++ g._pwd ++ "&p=%01")
  else if g._camera ≥ c.HERO4 then ret g 1
  else sendRequest c e g ""

/-- The member `turnOff`. -/
def turnOff (c : Consts) (e : Env) (g : GoProControl) : Result :=
  if checkConnection g = 0 then ret g 0
  else if isOn g = 0 then ret g 0
  else if g._camera = c.HERO3 then sendRequest c e g (g._url ++ "PW?t=" ++ g._pwd ++ "&p=%00")
  else if g._camera ≥ c.HERO4 then sendRequest c e g (g._url ++ "command/system/sleep")
  else sendRequest c e g ""

/-- The member `shoot`. -/
def shoot (c : Consts) (e : Env) (g : GoProControl) : Result :=
  if checkConnection g = 0 then ret g 0
  else if isOn g = 0 then ret g 0
  else if g._camera = c.HERO3 then sendRequest c e g (g._url ++ "SH?t=" ++ g._pwd ++ "&p=%01")
  else if g._camera ≥ c.HERO4 then sendRequest c e g (g._url ++ "command/shutter?p=1")
  else sendRequest c e g ""

/-- The member `stopShoot`. -/
def stopShoot (c : Consts) (e : Env) (g : GoProControl) : Result :=
  if checkConnection g = 0 then ret g 0
  else if isOn g = 0 then ret g 0
  else if g._camera = c.HERO3 then sendRequest c e g (g._url ++ "SH?t=" ++ g._pwd ++ "&p=%00")
  else if g._camera ≥ c.HERO4 then sendRequest c e g (g._url ++ "command/shutter?p=0")
  else sendRequest c e g ""

/-- The case labels and tokens of the HERO3 `switch` in `setMode`. -/
def setMode_HERO3 (c : Consts) : List (Nat × String) :=
  [(c.VIDEO_MODE, "00"), (c.PHOTO_MODE, "01"), (c.BURST_MODE, "02"),
   (c.TIMELAPSE_MODE, "03"), (c.TIMER_MODE, "04"), (c.PLAY_HDMI_MODE, "05")]

/-- The case labels and tokens of the HERO4 `switch` in `setMode`. -/
def setMode_HERO4 (c : Consts) : List (Nat × String) :=
  [(c.VIDEO_MODE, "0"), (c.PHOTO_MODE, "1"), (c.MULTISHOT_MODE, "2")]

/-- The member `setMode`. -/
def setMode (c : Consts) (e : Env) (g : GoProControl) (option : Nat) : Result :=
  if checkConnection g = 0 then ret g 0
  else if isOn g = 0 then ret g 0
  else if g._camera = c.HERO3 then
    match switch option (setMode_HERO3 c) with
    | some parameter => sendRequest c e g (g._url ++ "CM?t=" ++ g._pwd ++ "&p=%" ++ parameter)
    | none => printRet g (-1)
  else if g._camera ≥ c.HERO4 then
    match switch option (setMode_HERO4 c) with
    | some parameter => sendRequest c e g (g._url ++ "command/mode?p=" ++ parameter)
    | none => printRet g (-1)
  else sendRequest c e g ""

/-- The case labels and tokens of the HERO3 `switch` in `setOrientation`. -/
def setOrientation_HERO3 (c : Consts) : List (Nat × String) :=
  [(c.ORIENTATION_UP, "00"), (c.ORIENTATION_DOWN, "01")]

/-- The case labels and tokens of the HERO4 `switch` in `setOrientation`. -/
def setOrientation_HERO4 (c : Consts) : List (Nat × String) :=
  [(c.ORIENTATION_UP, "0"), (c.ORIENTATION_DOWN, "1"), (c.ORIENTATION_AUTO, "2")]

/-- The member `setOrientation`. -/
def setOrientation (c : Consts) (e : Env) (g : GoProControl) (option : Nat) : Result :=
  if checkConnection g = 0 then ret g 0
  else if isOn g = 0 then ret g 0
  else if g._camera = c.HERO3 then
    match switch option (setOrientation_HERO3 c) with
    | some parameter => sendRequest c e g (g._url ++ "UP?t=" ++ g._pwd ++ "&p=%" ++ parameter)
    | none => printRet g (-1)
  else if g._camera ≥ c.HERO4 then
    match switch option (setOrientation_HERO4 c) with
    | some parameter => sendRequest c e g (g._url ++ "setting/52/" ++ parameter)
    | none => printRet g (-1)
  else sendRequest c e g ""

/-- The case labels and tokens of the HERO3 `switch` in `setVideoResolution`. -/
def setVideoResolution_HERO3 (c : Consts) : List (Nat × String) :=
  [(c.VR_1080p, "06"), (c.VR_960p, "05"), (c.VR_720p, "03"), (c.VR_WVGA, "01")]

/-- The case labels and tokens of the HERO4 `switch` in `setVideoResolution`. -/
def setVideoResolution_HERO4 (c : Consts) : List (Nat × String) :=
  [(c.VR_4K, "1"), (c.VR_2K, "4"), (c.VR_2K_SuperView, "5"), (c.VR_1440p, "7"),
   (c.VR_1080p_SuperView, "8"), (c.VR_1080p, "9"), (c.VR_960p, "10"),
   (c.VR_720p_SuperView, "11"), (c.VR_720p, "12"), (c.VR_WVGA, "13")]

/-- The member `setVideoResolution`. -/
def setVideoResolution (c : Consts) (e : Env) (g : GoProControl) (option : Nat) : Result :=
  if checkConnection g = 0 then ret g 0
  else if isOn g = 0 then ret g 0
  else if g._camera = c.HERO3 then
    match switch option (setVideoResolution_HERO3 c) with
    | some parameter => sendRequest c e g (g._url ++ "VR?t=" ++ g._pwd ++ "&p=%" ++ parameter)
    | none => printRet g (-1)
  else if g._camera ≥ c.HERO4 then
    match switch option (setVideoResolution_HERO4 c) with
    | some parameter => sendRequest c e g (g._url ++ "setting/2/" ++ parameter)
    | none => printRet g (-1)
  else sendRequest c e g ""

/-- The case labels and tokens of the HERO3 `switch` in `setVideoFov`. -/
def setVideoFov_HERO3 (c : Consts) : List (Nat × String) :=
  [(c.WIDE_FOV, "00"), (c.MEDIUM_FOV, "01"), (c.NARROW_FOV, "02")]

/-- The case labels and tokens of the HERO4 `switch` in `setVideoFov`. -/
def setVideoFov_HERO4 (c : Consts) : List (Nat × String) :=
  [(c.WIDE_FOV, "0"), (c.MEDIUM_FOV, "1"), (c.NARROW_FOV, "2"), (c.LINEAR_FOV, "4")]

/-- The member `setVideoFov`. -/
def setVideoFov (c : Consts) (e : Env) (g : GoProControl) (option : Nat) : Result :=
  if checkConnection g = 0 then ret g 0
  else if isOn g = 0 then ret g 0
  else if g._camera = c.HERO3 then
    match switch option (setVideoFov_HERO3 c) with
    | some parameter => sendRequest c e g (g._url ++ "FV?t=" ++ g._pwd ++ "&p=%" ++ parameter)
    | none => printRet g (-1)
  else if g._camera ≥ c.HERO4 then
    match switch option (setVideoFov_HERO4 c) with
    | some parameter => sendRequest c e g (g._url ++ "setting/4/" ++ parameter)
    | none => printRet g (-1)
  else sendRequest c e g ""

/-- The case labels and tokens of the HERO3 `switch` in `setFrameRate`. -/
def setFrameRate_HERO3 (c : Consts) : List (Nat × String) :=
  [(c.FR_240, "0a"), (c.FR_120, "09"), (c.FR_100, "08"), (c.FR_60, "07"), (c.FR_50, "06"),
   (c.FR_48, "05"), (c.FR_30, "04"), (c.FR_25, "03"), (c.FR_24, "02"), (c.FR_12p5, "0b"),
   (c.FR_15, "01"), (c.FR_12, "00")]

/-- The case labels and tokens of the HERO4 `switch` in `setFrameRate`. -/
def setFrameRate_HERO4 (c : Consts) : List (Nat × String) :=
  [(c.FR_240, "0"), (c.FR_120, "1"), (c.FR_100, "2"), (c.FR_90, "3"), (c.FR_80, "4"),
   (c.FR_60, "5"), (c.FR_50, "6"), (c.FR_48, "7"), (c.FR_30, "8"), (c.FR_25, "9")]

/-- The member `setFrameRate`. -/
def setFrameRate (c : Consts) (e : Env) (g : GoProControl) (option : Nat) : Result :=
  if checkConnection g = 0 then ret g 0
  else if isOn g = 0 then ret g 0
  else if g._camera = c.HERO3 then
    match switch option (setFrameRate_HERO3 c) with
    | some parameter => sendRequest c e g (g._url ++ "FS?t=" ++ g._pwd ++ "&p=%" ++ parameter)
    | none => printRet g (-1)
  else if g._camera ≥ c.HERO4 then
    match switch option (setFrameRate_HERO4 c) with
    | some parameter => sendRequest c e g (g._url ++ "setting/3/" ++ parameter)
    | none => printRet g (-1)
  else sendRequest c e g ""

/-- The case labels and tokens of the HERO3 `switch` in `setVideoEncoding`. -/
def setVideoEncoding_HERO3 (c : Consts) : List (Nat × String) :=
  [(c.NTSC, "00"), (c.PAL, "01")]

/-- The case labels and tokens of the HERO4 `switch` in `setVideoEncoding`. -/
def setVideoEncoding_HERO4 (c : Consts) : List (Nat × String) :=
  [(c.NTSC, "0"), (c.PAL, "1")]

/-- The member `setVideoEncoding`. -/
def setVideoEncoding (c : Consts) (e : Env) (g : GoProControl) (option : Nat) : Result :=
  if checkConnection g = 0 then ret g 0
  else if isOn g = 0 then ret g 0
  else if g._camera = c.HERO3 then
    match switch option (setVideoEncoding_HERO3 c) with
    | some parameter => sendRequest c e g (g._url ++ "VM?t=" ++ g._pwd ++ "&p=%" ++ parameter)
    | none => printRet g (-1)
  else if g._camera ≥ c.HERO4 then
    match switch option (setVideoEncoding_HERO4 c) with
    | some parameter => sendRequest c e g (g._url ++ "setting/57/" ++ parameter)
    | none => printRet g (-1)
  else sendRequest c e g ""

/-- The case labels and tokens of the HERO3 `switch` in `setPhotoResolution`. -/
def setPhotoResolution_HERO3 (c : Consts) : List (Nat × String) :=
  [(c.PR_11MP_WIDE, "00"), (c.PR_8MP_WIDE, "01"), (c.PR_5MP_WIDE, "02")]

/-- The case labels and tokens of the HERO4 `switch` in `setPhotoResolution`. -/
def setPhotoResolution_HERO4 (c : Consts) : List (Nat × String) :=
  [(c.PR_12MP_WIDE, "0"), (c.PR_12MP_LINEAR, "10"), (c.PR_12MP_MEDIUM, "8"),
   (c.PR_12MP_NARROW, "9"), (c.PR_7MP_WIDE, "1"), (c.PR_7MP_MEDIUM, "2"), (c.PR_5MP_WIDE, "3")]

/-- The member `setPhotoResolution`. -/
def setPhotoResolution (c : Consts) (e : Env) (g : GoProControl) (option : Nat) : Result :=
  if checkConnection g = 0 then ret g 0
  else if isOn g = 0 then ret g 0
  else if g._camera = c.HERO3 then
    match switch option (setPhotoResolution_HERO3 c) with
    | some parameter => sendRequest c e g (g._url ++ "PR?t=" ++ g._pwd ++ "&p=%" ++ parameter)
    | none => printRet g (-1)
  else if g._camera ≥ c.HERO4 then
    match switch option (setPhotoResolution_HERO4 c) with
    | some parameter => sendRequest c e g (g._url ++ "setting/17/" ++ parameter)
    | none => printRet g (-1)
  else sendRequest c e g ""

/-- The values a C `float` argument can take, as far as comparison with a
constant and conversion to `int` can tell them apart: not-a-number, an
infinity, or a finite value (both zeros are `finite 0`). -/
inductive CFloat where
  | nan
  | inf (negative : Bool)
  | finite (q : ℚ)
deriving DecidableEq

/-- The C comparison `x != k` of a float with a finite constant. -/
def CFloat.ne (x : CFloat) (k : ℚ) : Bool :=
  match x with
  | .finite q => decide (q ≠ k)
  | _ => true

/-- The C comparison `x == k` of a float with a finite constant. -/
def CFloat.eq (x : CFloat) (k : ℚ) : Bool :=
  match x with
  | .finite q => decide (q = k)
  | _ => false

/-- The conversion `(int)x` followed by the conversion to `uint8_t`: the value
is truncated toward zero; where it does not fit an `int` the result is
indeterminate. -/
def CFloat.toUint8 (e : Env) : CFloat → Nat
  | .finite q =>
    let i := Int.tdiv q.num q.den
    if -2147483648 ≤ i ∧ i ≤ 2147483647 then uint8 i else e.indeterminate % 256
  | _ => e.indeterminate % 256

/-- The case labels and tokens of the HERO3 `switch` in `setTimeLapseInterval`. -/
def setTimeLapseInterval_HERO3 : List (Nat × String) :=
  [(60, "3c"), (30, "1e"), (10, "0a"), (5, "05"), (1, "01"), (0, "00")]

/-- The case labels and tokens of the HERO4 `switch` in `setTimeLapseInterval`. -/
def setTimeLapseInterval_HERO4 : List (Nat × String) :=
  [(60, "6"), (30, "5"), (10, "4"), (5, "3"), (1, "1"), (0, "0")]

/-- The member `setTimeLapseInterval`. -/
def setTimeLapseInterval (c : Consts) (e : Env) (g : GoProControl) (option : CFloat) : Result :=
  if checkConnection g = 0 then ret g 0
  else if isOn g = 0 then ret g 0
  else if option.ne (1/2) || option.ne 1 || option.ne 5 || option.ne 10 || option.ne 30
      || option.ne 60 then ret g (-1)
  else
    let option1 := if option.eq (1/2) then CFloat.finite 0 else option
    let integer_option := option1.toUint8 e
    if g._camera = c.HERO3 then
      match switch integer_option setTimeLapseInterval_HERO3 with
      | some parameter => sendRequest c e g (g._url ++ "TI?t=" ++ g._pwd ++ "&p=%" ++ parameter)
      | none => printRet g (-1)
    else if g._camera ≥ c.HERO4 then
      match switch integer_option setTimeLapseInterval_HERO4 with
      | some parameter => sendRequest c e g (g._url ++ "setting/5/" ++ parameter)
      | none => printRet g (-1)
    else sendRequest c e g ""

/-- The case labels and tokens of the HERO3 `switch` in `setContinuousShot`. -/
def setContinuousShot_HERO3 : List (Nat × String) :=
  [(10, "0a"), (5, "05"), (3, "03"), (0, "00")]

/-- The member `setContinuousShot`. -/
def setContinuousShot (c : Consts) (e : Env) (g : GoProControl) (option : Nat) : Result :=
  if checkConnection g = 0 then ret g 0
  else if isOn g = 0 then ret g 0
  else if option ≠ 0 ∨ option ≠ 3 ∨ option ≠ 5 ∨ option ≠ 10 then ret g (-1)
  else if g._camera = c.HERO3 then
    match switch option setContinuousShot_HERO3 with
    | some parameter => sendRequest c e g (g._url ++ "CS?t=" ++ g._pwd ++ "&p=%" ++ parameter)
    | none => printRet g (-1)
  else if g._camera ≥ c.HERO4 then ret g 0
  else sendRequest c e g ""

/-- The member `localizationOn`. -/
def localizationOn (c : Consts) (e : Env) (g : GoProControl) : Result :=
  if checkConnection g = 0 then ret g 0
  else if g._camera = c.HERO3 then sendRequest c e g (g._url ++ "LL?t=" ++ g._pwd ++ "&p=%01")
  else if g._camera ≥ c.HERO4 then sendRequest c e g (g._url ++ "command/system/locate?p=1")
  else sendRequest c e g ""

/-- The member `localizationOff`. -/
def localizationOff (c : Consts) (e : Env) (g : GoProControl) : Result :=
  if checkConnection g = 0 then ret g 0
  else if g._camera = c.HERO3 then sendRequest c e g (g._url ++ "LL?t=" ++ g._pwd ++ "&p=%00")
  else if g._camera ≥ c.HERO4 then sendRequest c e g (g._url ++ "command/system/locate?p=0")
  else sendRequest c e g ""

/-- The member `deleteLast`. -/
def deleteLast (c : Consts) (e : Env) (g : GoProControl) : Result :=
  if checkConnection g = 0 then ret g 0
  else if isOn g = 0 then ret g 0
  else if g._camera = c.HERO3 then sendRequest c e g (g._url ++ "DL?t=" ++ g._pwd)
  else if g._camera ≥ c.HERO4 then sendRequest c e g (g._url ++ "command/storage/delete/last")
  else sendRequest c e g ""

/-- The member `deleteAll`. -/
def deleteAll (c : Consts) (e : Env) (g : GoProControl) : Result :=
  if checkConnection g = 0 then ret g 0
  else if isOn g = 0 then ret g 0
  else if g._camera = c.HERO3 then sendRequest c e g (g._url ++ "DA?t=" ++ g._pwd)
  else if g._camera ≥ c.HERO4 then
    sendRequest c e g (g._url ++ "command/command/storage/delete/all")
  else sendRequest c e g ""

/-- The unsigned 32-bit difference `a - b`. -/
def uint32sub (a b : Nat) : Nat := (a % 4294967296 + 4294967296 - b % 4294967296) % 4294967296

/-- The member `keepAlive`.  Its last branch ends without a `return`, so the
value the caller reads there is indeterminate. -/
def keepAlive (c : Consts) (e : Env) (g : GoProControl) : Result :=
  if checkConnection g = 0 then ret g 0
  else if uint32sub e.millis g._last_request ≤ c.KEEP_ALIVE then ret g 0
  else ⟨e.indeterminate % 256, g, []⟩

/-- The loop `while (WiFi.status() == WL_IDLE_STATUS);` started at the `k`-th
call of `WiFi.status()`: the number of calls made when the loop is left, or
`none` when it is still running after `fuel` calls. -/
def awaitStatus (c : Consts) (e : Env) : Nat → Nat → Option Nat
  | 0, _ => none
  | fuel + 1, k =>
    if e.wifiStatus k = c.WL_IDLE_STATUS then awaitStatus c e fuel (k + 1) else some (k + 1)

/-- The member `begin`; `none` when the wait for the WiFi status has not ended
within `fuel` calls of `WiFi.status()`. -/
def begin (c : Consts) (e : Env) (fuel : Nat) (g : GoProControl) : Option Result :=
  if checkConnection g ≠ 0 then some (ret g 0)
  else if g._camera ≤ c.HERO2 then some (ret g (-1))
  else
    match awaitStatus c e fuel 0 with
    | none => none
    | some k =>
      if e.wifiStatus k = c.WL_CONNECTED then
        some ⟨uint8 1, { g with _connected := true }, [Event.wifiBegin g._ssid g._pwd]⟩
      else if e.wifiStatus (k + 1) = c.WL_CONNECT_FAILED then
        some ⟨uint8 (-2), { g with _connected := false }, [Event.wifiBegin g._ssid g._pwd]⟩
      else
        some ⟨uint8 0, { g with _connected := false },
          Event.wifiBegin g._ssid g._pwd :: debugPrint g⟩

/-- The member `end`. -/
def «end» (g : GoProControl) : GoProControl × List Event :=
  if checkConnection g = 0 then (g, [])
  else ({ g with _connected := false }, [Event.clientStop, Event.wifiDisconnect])

/-- A call of one of the public operations that answer with a request
outcome, with its argument. -/
inductive Operation where
  | confirmPairing
  | turnOn
  | turnOff
  | shoot
  | stopShoot
  | setMode (option : Nat)
  | setOrientation (option : Nat)
  | setVideoResolution (option : Nat)
  | setVideoFov (option : Nat)
  | setFrameRate (option : Nat)
  | setVideoEncoding (option : Nat)
  | setPhotoResolution (option : Nat)
  | setTimeLapseInterval (option : CFloat)
  | setContinuousShot (option : Nat)
  | localizationOn
  | localizationOff
  | deleteLast
  | deleteAll
  | keepAlive
deriving DecidableEq

/-- Performs the call `op` on the client `g`. -/
def call (c : Consts) (e : Env) (g : GoProControl) : Operation → Result
  | .confirmPairing => confirmPairing c e g
  | .turnOn => turnOn c e g
  | .turnOff => turnOff c e g
  | .shoot => shoot c e g
  | .stopShoot => stopShoot c e g
  | .setMode option => setMode c e g option
  | .setOrientation option => setOrientation c e g option
  | .setVideoResolution option => setVideoResolution c e g option
  | .setVideoFov option => setVideoFov c e g option
  | .setFrameRate option => setFrameRate c e g option
  | .setVideoEncoding option => setVideoEncoding c e g option
  | .setPhotoResolution option => setPhotoResolution c e g option
  | .setTimeLapseInterval option => setTimeLapseInterval c e g option
  | .setContinuousShot option => setContinuousShot c e g option
  | .localizationOn => localizationOn c e g
  | .localizationOff => localizationOff c e g
  | .deleteLast => deleteLast c e g
  | .deleteAll => deleteAll c e g
  | .keepAlive => keepAlive c e g

/-- The two request-encoding schemes. -/
inductive Dialect where
  | legacy
  | modern
deriving DecidableEq, Repr

/-- The scheme the `if (_camera == HERO3) ... else if (_camera >= HERO4) ...`
of the constructor and of every operation selects for a camera model, or
`none` when neither branch is taken. -/
def dialect (c : Consts) (camera : Nat) : Option Dialect :=
  if camera = c.HERO3 then some Dialect.legacy
  else if camera ≥ c.HERO4 then some Dialect.modern
  else none

/-- The setting operations that take an enumerated option. -/
inductive Setting where
  | setMode
  | setOrientation
  | setVideoResolution
  | setVideoFov
  | setFrameRate
  | setVideoEncoding
  | setPhotoResolution
deriving DecidableEq, Repr

/-- The call of a setting operation with an option. -/
def Setting.op : Setting → Nat → Operation
  | .setMode => Operation.setMode
  | .setOrientation => Operation.setOrientation
  | .setVideoResolution => Operation.setVideoResolution
  | .setVideoFov => Operation.setVideoFov
  | .setFrameRate => Operation.setFrameRate
  | .setVideoEncoding => Operation.setVideoEncoding
  | .setPhotoResolution => Operation.setPhotoResolution

/-- The table of a setting operation in a dialect: the case labels and tokens
of the corresponding `switch`. -/
def Setting.table (c : Consts) : Setting → Dialect → List (Nat × String)
  | .setMode, .legacy => setMode_HERO3 c
  | .setMode, .modern => setMode_HERO4 c
  | .setOrientation, .legacy => setOrientation_HERO3 c
  | .setOrientation, .modern => setOrientation_HERO4 c
  | .setVideoResolution, .legacy => setVideoResolution_HERO3 c
  | .setVideoResolution, .modern => setVideoResolution_HERO4 c
  | .setVideoFov, .legacy => setVideoFov_HERO3 c
  | .setVideoFov, .modern => setVideoFov_HERO4 c
  | .setFrameRate, .legacy => setFrameRate_HERO3 c
  | .setFrameRate, .modern => setFrameRate_HERO4 c
  | .setVideoEncoding, .legacy => setVideoEncoding_HERO3 c
  | .setVideoEncoding, .modern => setVideoEncoding_HERO4 c
  | .setPhotoResolution, .legacy => setPhotoResolution_HERO3 c
  | .setPhotoResolution, .modern => setPhotoResolution_HERO4 c

/-- The option values that are a case of a setting operation in a dialect. -/
def Setting.cases (c : Consts) (s : Setting) (d : Dialect) : List Nat :=
  (s.table c d).map Prod.fst

/-- A client constructed for `camera` that has since connected and made its
last request at time `t`.  No member function writes any other member. -/
def connectedClient (c : Consts) (ssid pwd : String) (camera t : Nat) : GoProControl :=
  { GoProControl.GoProControl c ssid pwd camera with _connected := true, _last_request := t }

/-- The request strings a call handed to `_http.get`, in order. -/
def dispatched (r : Result) : List String :=
  r.trace.filterMap fun ev =>
    match ev with
    | Event.httpGet request => some request
    | _ => none

/-- The timelapse intervals the specification allows. -/
def timeLapseDomain : List CFloat :=
  [CFloat.finite (1/2), CFloat.finite 1, CFloat.finite 5, CFloat.finite 10, CFloat.finite 30,
   CFloat.finite 60]

/-- One assignment of the constants, with consecutive enumerators, at which
the statements below are instantiated. -/
def sampleConsts : Consts :=
  { _host := "10.5.5.9"
    _port := 80
    _last_request := 0
    _debug_port := none
    KEEP_ALIVE := 2500
    HERO2 := 2
    HERO3 := 3
    HERO4 := 4
    WL_IDLE_STATUS := 0
    WL_CONNECTED := 3
    WL_CONNECT_FAILED := 4
    VIDEO_MODE := 1
    PHOTO_MODE := 2
    BURST_MODE := 3
    TIMELAPSE_MODE := 4
    TIMER_MODE := 5
    PLAY_HDMI_MODE := 6
    MULTISHOT_MODE := 7
    ORIENTATION_UP := 1
    ORIENTATION_DOWN := 2
    ORIENTATION_AUTO := 3
    VR_4K := 1
    VR_2K := 2
    VR_2K_SuperView := 3
    VR_1440p := 4
    VR_1080p_SuperView := 5
    VR_1080p := 6
    VR_960p := 7
    VR_720p_SuperView := 8
    VR_720p := 9
    VR_WVGA := 10
    WIDE_FOV := 1
    MEDIUM_FOV := 2
    NARROW_FOV := 3
    LINEAR_FOV := 4
    FR_240 := 1
    FR_120 := 2
    FR_100 := 3
    FR_90 := 4
    FR_80 := 5
    FR_60 := 6
    FR_50 := 7
    FR_48 := 8
    FR_30 := 9
    FR_25 := 10
    FR_24 := 11
    FR_15 := 12
    FR_12p5 := 13
    FR_12 := 14
    NTSC := 1
    PAL := 2
    PR_12MP_WIDE := 1
    PR_12MP_LINEAR := 2
    PR_12MP_MEDIUM := 3
    PR_12MP_NARROW := 4
    PR_11MP_WIDE := 5
    PR_8MP_WIDE := 6
    PR_7MP_WIDE := 7
    PR_7MP_MEDIUM := 8
    PR_5MP_WIDE := 9 }

/-- An environment whose transport connects and answers with `status`, and
whose WiFi status is `wifi` at every call. -/
def sampleEnv (status wifi : Nat) : Env :=
  { connect := true
    responseStatusCode := status
    millis := 1000
    wifiStatus := fun _ => wifi
    indeterminate := 0 }

/-- The burst counts the specification allows. -/
def burstDomain : List Nat := [0, 3, 5, 10]

/-- The number of times a call invoked the transport, that is, called
`_client.connect`. -/
def connects (r : Result) : Nat :=
  r.trace.countP fun ev =>
    match ev with
    | Event.clientConnect _ _ => true
    | _ => false

/-- The calls whose outcome is that of the dispatcher: the option-free
operations that build one request, and the setting operations with an option
that is a case of the table of the dialect `d`. -/
def Operation.inTable (c : Consts) (d : Dialect) : Operation → Prop
  | .setMode option => option ∈ Setting.cases c Setting.setMode d
  | .setOrientation option => option ∈ Setting.cases c Setting.setOrientation d
  | .setVideoResolution option => option ∈ Setting.cases c Setting.setVideoResolution d
  | .setVideoFov option => option ∈ Setting.cases c Setting.setVideoFov d
  | .setFrameRate option => option ∈ Setting.cases c Setting.setFrameRate d
  | .setVideoEncoding option => option ∈ Setting.cases c Setting.setVideoEncoding d
  | .setPhotoResolution option => option ∈ Setting.cases c Setting.setPhotoResolution d
  | .shoot => True
  | .stopShoot => True
  | .turnOff => True
  | .localizationOn => True
  | .localizationOff => True
  | .deleteLast => True
  | .deleteAll => True
  | _ => False

/-- One call in a session: `begin` (with the answers of the environment and
the number of status polls it may make), `end`, or an operation. -/
inductive Step where
  | begin (e : Env) (fuel : Nat)
  | «end»
  | op (e : Env) (o : Operation)

/-- The client after one call of a session and the capability calls made, or
`none` when `begin` has not returned. -/
def Step.run (c : Consts) (g : GoProControl) : Step → Option (GoProControl × List Event)
  | .begin e fuel => (GoPro.begin c e fuel g).map fun r => (r.state, r.trace)
  | .«end» => some (GoPro.«end» g)
  | .op e o => some ((call c e g o).state, (call c e g o).trace)

/-- The client after a sequence of calls and all capability calls made. -/
def runSteps (c : Consts) (g : GoProControl) : List Step → Option (GoProControl × List Event)
  | [] => some (g, [])
  | st :: rest =>
    match st.run c g with
    | none => none
    | some (g1, tr1) =>
      match runSteps c g1 rest with
      | none => none
      | some (g2, tr2) => some (g2, tr1 ++ tr2)

/-! ## Auxiliary facts -/

@[simp] theorem uint8_zero : uint8 0 = 0 := by decide
@[simp] theorem uint8_one : uint8 1 = 1 := by decide
@[simp] theorem uint8_neg_one : uint8 (-1) = 255 := by decide
@[simp] theorem uint8_neg_two : uint8 (-2) = 254 := by decide
@[simp] theorem uint8_neg_three : uint8 (-3) = 253 := by decide

theorem checkConnection_of_connected {g : GoProControl} (h : g._connected = true) :
    checkConnection g = 1 := by
  simp [checkConnection, getStatus, h]

theorem checkConnection_of_disconnected {g : GoProControl} (h : g._connected = false) :
    checkConnection g = 0 := by
  simp [checkConnection, getStatus, h]

theorem switch_eq_none {option : Nat} {table : List (Nat × String)}
    (h : option ∉ table.map Prod.fst) : switch option table = none := by
  induction table with
  | nil => rfl
  | cons head rest ih =>
    obtain ⟨label, parameter⟩ := head
    simp only [List.map_cons, List.mem_cons, not_or] at h
    simp [switch, h.1, ih h.2]

theorem dispatched_sendRequest (c : Consts) (e : Env) (g : GoProControl) (request : String) :
    dispatched (sendRequest c { e with connect := true } g request) = [request] := by
  simp only [sendRequest, Bool.not_true, Bool.false_eq_true, if_false]
  split_ifs <;> simp [dispatched]

theorem awaitStatus_settles (c : Consts) (e : Env) (k : Nat)
    (hidle : ∀ i, i < k → e.wifiStatus i = c.WL_IDLE_STATUS)
    (hleft : e.wifiStatus k ≠ c.WL_IDLE_STATUS) :
    ∀ fuel j, j ≤ k → k - j < fuel → awaitStatus c e fuel j = some (k + 1) := by
  intro fuel
  induction fuel with
  | zero => intro j _ hlt; omega
  | succ fuel ih =>
    intro j hj hlt
    by_cases hjk : j = k
    · subst hjk
      simp [awaitStatus, hleft]
    · have hjlt : j < k := by omega
      simp only [awaitStatus, hidle j hjlt, if_true]
      exact ih (j + 1) (by omega) (by omega)

theorem timeLapse_guard (option : CFloat) :
    (option.ne (1/2) || option.ne 1 || option.ne 5 || option.ne 10 || option.ne 30
      || option.ne 60) = true := by
  cases option with
  | nan => simp [CFloat.ne]
  | inf negative => simp [CFloat.ne]
  | finite q =>
    by_cases h : q = 1
    · subst h
      simp [CFloat.ne]
    · simp [CFloat.ne, h]

theorem setTimeLapseInterval_of_connected (c : Consts) (e : Env) (g : GoProControl)
    (option : CFloat) (hconnected : g._connected = true) :
    setTimeLapseInterval c e g option = ⟨255, g, []⟩ := by
  simp only [setTimeLapseInterval, checkConnection_of_connected hconnected, isOn,
    timeLapse_guard option]
  simp [ret]

theorem setContinuousShot_of_connected (c : Consts) (e : Env) (g : GoProControl)
    (option : Nat) (hconnected : g._connected = true) :
    setContinuousShot c e g option = ⟨255, g, []⟩ := by
  have hguard : option ≠ 0 ∨ option ≠ 3 ∨ option ≠ 5 ∨ option ≠ 10 := by omega
  simp [setContinuousShot, checkConnection_of_connected hconnected, isOn, hguard, ret]

theorem switch_eq_some {option : Nat} {table : List (Nat × String)}
    (h : option ∈ table.map Prod.fst) : ∃ parameter, switch option table = some parameter := by
  induction table with
  | nil => simp at h
  | cons head rest ih =>
    obtain ⟨label, parameter⟩ := head
    by_cases hl : option = label
    · exact ⟨parameter, by simp [switch, hl]⟩
    · have hrest : option ∈ rest.map Prod.fst := by
        simpa [hl] using h
      obtain ⟨p, hp⟩ := ih hrest
      exact ⟨p, by simp [switch, hl, hp]⟩

theorem connects_sendRequest (c : Consts) (e : Env) (g : GoProControl) (request : String) :
    connects (sendRequest c e g request) = 1 ∧
    (dispatched (sendRequest c e g request)).length ≤ 1 := by
  simp only [sendRequest]
  split_ifs <;> simp [connects, dispatched]

theorem call_eq_sendRequest (c : Consts) (g : GoProControl) (d : Dialect) (op : Operation)
    (hconnected : g._connected = true) (hdialect : dialect c g._camera = some d)
    (hop : op.inTable c d) : ∃ request, ∀ e, call c e g op = sendRequest c e g request := by
  have hcheck := checkConnection_of_connected hconnected
  cases d with
  | legacy =>
    have hcam : g._camera = c.HERO3 := by
      by_contra hne
      by_cases h4 : g._camera ≥ c.HERO4 <;> simp [dialect, hne, h4] at hdialect
    cases op <;> simp only [Operation.inTable, Setting.cases, Setting.table] at hop <;>
      first
      | exact hop.elim
      | (obtain ⟨p, hp⟩ := switch_eq_some hop
         apply Exists.intro
         · intro e
           simp only [call, setMode, setOrientation, setVideoResolution, setVideoFov,
             setFrameRate, setVideoEncoding, setPhotoResolution, hcheck, isOn, hcam, hp,
             uint8_one, one_ne_zero, if_false, if_true]
           rfl)
      | (apply Exists.intro
         · intro e
           simp only [call, shoot, stopShoot, turnOff, localizationOn, localizationOff,
             deleteLast, deleteAll, hcheck, isOn, hcam, uint8_one, one_ne_zero, if_false,
             if_true]
           rfl)
  | modern =>
    have hcam : g._camera ≠ c.HERO3 ∧ g._camera ≥ c.HERO4 := by
      by_cases h3 : g._camera = c.HERO3
      · simp [dialect, h3] at hdialect
      · by_cases h4 : g._camera ≥ c.HERO4
        · exact ⟨h3, h4⟩
        · simp [dialect, h3, h4] at hdialect
    cases op <;> simp only [Operation.inTable, Setting.cases, Setting.table] at hop <;>
      first
      | exact hop.elim
      | (obtain ⟨p, hp⟩ := switch_eq_some hop
         apply Exists.intro
         · intro e
           simp only [call, setMode, setOrientation, setVideoResolution, setVideoFov,
             setFrameRate, setVideoEncoding, setPhotoResolution, hcheck, isOn, hcam.1, hcam.2,
             hp, uint8_one, one_ne_zero, if_false, if_true]
           rfl)
      | (apply Exists.intro
         · intro e
           simp only [call, shoot, stopShoot, turnOff, localizationOn, localizationOff,
             deleteLast, deleteAll, hcheck, isOn, hcam.1, hcam.2, uint8_one, one_ne_zero,
             if_false, if_true]
           rfl)

theorem call_of_disconnected (c : Consts) (e : Env) (g : GoProControl) (op : Operation)
    (hdisconnected : g._connected = false) : call c e g op = ⟨0, g, []⟩ := by
  have hcheck := checkConnection_of_disconnected hdisconnected
  cases op <;>
    simp [call, confirmPairing, turnOn, turnOff, shoot, stopShoot, setMode, setOrientation,
      setVideoResolution, setVideoFov, setFrameRate, setVideoEncoding, setPhotoResolution,
      setTimeLapseInterval, setContinuousShot, localizationOn, localizationOff, deleteLast,
      deleteAll, keepAlive, hcheck, ret]

theorem begin_of_unsupported (c : Consts) (e : Env) (fuel : Nat) (g : GoProControl)
    (hdisconnected : g._connected = false) (hmodel : g._camera ≤ c.HERO2) :
    begin c e fuel g = some ⟨255, g, []⟩ := by
  simp [begin, checkConnection_of_disconnected hdisconnected, hmodel, ret]

theorem step_of_unsupported (c : Consts) (g : GoProControl) (st : Step)
    (hdisconnected : g._connected = false) (hmodel : g._camera ≤ c.HERO2) :
    st.run c g = some (g, []) := by
  cases st with
  | begin e fuel => simp [Step.run, begin_of_unsupported c e fuel g hdisconnected hmodel]
  | «end» => simp [Step.run, «end», checkConnection_of_disconnected hdisconnected]
  | op e o => simp [Step.run, call_of_disconnected c e g o hdisconnected]

theorem runSteps_of_unsupported (c : Consts) (g : GoProControl) (steps : List Step)
    (hdisconnected : g._connected = false) (hmodel : g._camera ≤ c.HERO2) :
    runSteps c g steps = some (g, []) := by
  induction steps with
  | nil => rfl
  | cons st rest ih => simp [runSteps, step_of_unsupported c g st hdisconnected hmodel, ih]

theorem dispatched_ret (g : GoProControl) (v : Int) : dispatched (ret g v) = [] := rfl

theorem dispatched_debugPrint (g : GoProControl) (tr : List Event) :
    (tr ++ debugPrint g).filterMap (fun ev =>
      match ev with
      | Event.httpGet request => some request
      | _ => none) =
    tr.filterMap (fun ev =>
      match ev with
      | Event.httpGet request => some request
      | _ => none) := by
  unfold debugPrint
  cases g._debug_port <;> simp

theorem dispatched_printRet (g : GoProControl) (v : Int) : dispatched (printRet g v) = [] := by
  have h := dispatched_debugPrint g []
  simpa [dispatched, printRet] using h

theorem connects_printRet (g : GoProControl) (v : Int) : connects (printRet g v) = 0 := by
  unfold connects printRet debugPrint
  cases g._debug_port <;> simp

theorem mem_dispatched_sendRequest {c : Consts} {e : Env} {g : GoProControl}
    {request r : String} (h : r ∈ dispatched (sendRequest c e g request)) : r = request := by
  simp only [sendRequest] at h
  split_ifs at h <;> simp [dispatched] at h <;> exact h

theorem credential_plain (u k pwd : String) :
    ∃ a b, u ++ (k ++ "?t=") ++ pwd = a ++ "?t=" ++ pwd ++ b :=
  ⟨u ++ k, "", by simp [String.append_assoc]⟩

theorem credential_fixed (u k pwd sfx : String) :
    ∃ a b, u ++ (k ++ "?t=") ++ pwd ++ sfx = a ++ "?t=" ++ pwd ++ b :=
  ⟨u ++ k, sfx, by simp [String.append_assoc]⟩

theorem credential_token (u k pwd sfx parameter : String) :
    ∃ a b, u ++ (k ++ "?t=") ++ pwd ++ sfx ++ parameter = a ++ "?t=" ++ pwd ++ b :=
  ⟨u ++ k, sfx ++ parameter, by simp [String.append_assoc]⟩

theorem legacy_request_has_credential (c : Consts) (e : Env) (g : GoProControl)
    (op : Operation) (hlegacy : g._camera = c.HERO3) (request : String)
    (hmem : request ∈ dispatched (call c e g op)) :
    ∃ a b, request = a ++ "?t=" ++ g._pwd ++ b := by
  cases hc : g._connected with
  | false =>
    rw [call_of_disconnected c e g op hc] at hmem
    simp [dispatched] at hmem
  | true =>
    have hcheck := checkConnection_of_connected hc
    cases op with
    | confirmPairing =>
      simp only [call, confirmPairing, hcheck, hlegacy, one_ne_zero, if_false, if_true] at hmem
      rw [mem_dispatched_sendRequest hmem]
      exact credential_plain g._url "DL" g._pwd
    | turnOn =>
      have hrun : turnOn c e g = ⟨0, g, []⟩ := by
        simp [turnOn, hcheck, isOn, ret]
      simp [call, hrun, dispatched] at hmem
    | turnOff =>
      simp only [call, turnOff, hcheck, isOn, uint8_one, hlegacy, one_ne_zero, if_false,
        if_true] at hmem
      rw [mem_dispatched_sendRequest hmem]
      exact credential_fixed g._url "PW" g._pwd "&p=%00"
    | shoot =>
      simp only [call, shoot, hcheck, isOn, uint8_one, hlegacy, one_ne_zero, if_false,
        if_true] at hmem
      rw [mem_dispatched_sendRequest hmem]
      exact credential_fixed g._url "SH" g._pwd "&p=%01"
    | stopShoot =>
      simp only [call, stopShoot, hcheck, isOn, uint8_one, hlegacy, one_ne_zero, if_false,
        if_true] at hmem
      rw [mem_dispatched_sendRequest hmem]
      exact credential_fixed g._url "SH" g._pwd "&p=%00"
    | setMode option =>
      simp only [call, setMode, hcheck, isOn, uint8_one, hlegacy, one_ne_zero, if_false,
        if_true] at hmem
      cases hs : switch option (setMode_HERO3 c) with
      | none =>
        rw [hs] at hmem
        simp [dispatched_printRet] at hmem
      | some parameter =>
        rw [hs] at hmem
        rw [mem_dispatched_sendRequest hmem]
        exact credential_token g._url "CM" g._pwd "&p=%" parameter
    | setOrientation option =>
      simp only [call, setOrientation, hcheck, isOn, uint8_one, hlegacy, one_ne_zero, if_false,
        if_true] at hmem
      cases hs : switch option (setOrientation_HERO3 c) with
      | none =>
        rw [hs] at hmem
        simp [dispatched_printRet] at hmem
      | some parameter =>
        rw [hs] at hmem
        rw [mem_dispatched_sendRequest hmem]
        exact credential_token g._url "UP" g._pwd "&p=%" parameter
    | setVideoResolution option =>
      simp only [call, setVideoResolution, hcheck, isOn, uint8_one, hlegacy, one_ne_zero, if_false,
        if_true] at hmem
      cases hs : switch option (setVideoResolution_HERO3 c) with
      | none =>
        rw [hs] at hmem
        simp [dispatched_printRet] at hmem
      | some parameter =>
        rw [hs] at hmem
        rw [mem_dispatched_sendRequest hmem]
        exact credential_token g._url "VR" g._pwd "&p=%" parameter
    | setVideoFov option =>
      simp only [call, setVideoFov, hcheck, isOn, uint8_one, hlegacy, one_ne_zero, if_false,
        if_true] at hmem
      cases hs : switch option (setVideoFov_HERO3 c) with
      | none =>
        rw [hs] at hmem
        simp [dispatched_printRet] at hmem
      | some parameter =>
        rw [hs] at hmem
        rw [mem_dispatched_sendRequest hmem]
        exact credential_token g._url "FV" g._pwd "&p=%" parameter
    | setFrameRate option =>
      simp only [call, setFrameRate, hcheck, isOn, uint8_one, hlegacy, one_ne_zero, if_false,
        if_true] at hmem
      cases hs : switch option (setFrameRate_HERO3 c) with
      | none =>
        rw [hs] at hmem
        simp [dispatched_printRet] at hmem
      | some parameter =>
        rw [hs] at hmem
        rw [mem_dispatched_sendRequest hmem]
        exact credential_token g._url "FS" g._pwd "&p=%" parameter
    | setVideoEncoding option =>
      simp only [call, setVideoEncoding, hcheck, isOn, uint8_one, hlegacy, one_ne_zero, if_false,
        if_true] at hmem
      cases hs : switch option (setVideoEncoding_HERO3 c) with
      | none =>
        rw [hs] at hmem
        simp [dispatched_printRet] at hmem
      | some parameter =>
        rw [hs] at hmem
        rw [mem_dispatched_sendRequest hmem]
        exact credential_token g._url "VM" g._pwd "&p=%" parameter
    | setPhotoResolution option =>
      simp only [call, setPhotoResolution, hcheck, isOn, uint8_one, hlegacy, one_ne_zero, if_false,
        if_true] at hmem
      cases hs : switch option (setPhotoResolution_HERO3 c) with
      | none =>
        rw [hs] at hmem
        simp [dispatched_printRet] at hmem
      | some parameter =>
        rw [hs] at hmem
        rw [mem_dispatched_sendRequest hmem]
        exact credential_token g._url "PR" g._pwd "&p=%" parameter
    | setTimeLapseInterval option =>
      simp [call, setTimeLapseInterval_of_connected c e g option hc, dispatched] at hmem
    | setContinuousShot option =>
      simp [call, setContinuousShot_of_connected c e g option hc, dispatched] at hmem
    | localizationOn =>
      simp only [call, localizationOn, hcheck, isOn, uint8_one, hlegacy, one_ne_zero, if_false,
        if_true] at hmem
      rw [mem_dispatched_sendRequest hmem]
      exact credential_fixed g._url "LL" g._pwd "&p=%01"
    | localizationOff =>
      simp only [call, localizationOff, hcheck, isOn, uint8_one, hlegacy, one_ne_zero, if_false,
        if_true] at hmem
      rw [mem_dispatched_sendRequest hmem]
      exact credential_fixed g._url "LL" g._pwd "&p=%00"
    | deleteLast =>
      simp only [call, deleteLast, hcheck, isOn, uint8_one, hlegacy, one_ne_zero, if_false,
        if_true] at hmem
      rw [mem_dispatched_sendRequest hmem]
      exact credential_plain g._url "DL" g._pwd
    | deleteAll =>
      simp only [call, deleteAll, hcheck, isOn, uint8_one, hlegacy, one_ne_zero, if_false,
        if_true] at hmem
      rw [mem_dispatched_sendRequest hmem]
      exact credential_plain g._url "DA" g._pwd
    | keepAlive =>
      have htrace : (keepAlive c e g).trace = [] := by
        unfold keepAlive
        split_ifs <;> simp [ret]
      simp [call, dispatched, htrace] at hmem

theorem sendRequest_ret_trace (c : Consts) (e : Env) (g1 g2 : GoProControl) (request : String) :
    (sendRequest c e g1 request).ret = (sendRequest c e g2 request).ret ∧
    (sendRequest c e g1 request).trace = (sendRequest c e g2 request).trace := by
  simp only [sendRequest]
  split_ifs <;> simp

theorem ret_ret_trace (g1 g2 : GoProControl) (v : Int) :
    (ret g1 v).ret = (ret g2 v).ret ∧ (ret g1 v).trace = (ret g2 v).trace := ⟨rfl, rfl⟩

theorem printRet_ret_trace (g : GoProControl) (p1 p2 : String) (v : Int) :
    (printRet { g with _pwd := p1 } v).ret = (printRet { g with _pwd := p2 } v).ret ∧
    (printRet { g with _pwd := p1 } v).trace = (printRet { g with _pwd := p2 } v).trace :=
  ⟨rfl, rfl⟩

theorem modern_call_password_free (c : Consts) (e : Env) (g : GoProControl) (p1 p2 : String)
    (op : Operation) (h3 : g._camera ≠ c.HERO3) (h4 : g._camera ≥ c.HERO4) :
    (call c e { g with _pwd := p1 } op).ret = (call c e { g with _pwd := p2 } op).ret ∧
    (call c e { g with _pwd := p1 } op).trace = (call c e { g with _pwd := p2 } op).trace := by
  rcases Bool.eq_false_or_eq_true g._connected with hc | hc
  swap
  · rw [call_of_disconnected c e { g with _pwd := p1 } op hc,
      call_of_disconnected c e { g with _pwd := p2 } op hc]
    exact ⟨rfl, rfl⟩
  · have hcheck : ∀ p, checkConnection { g with _pwd := p } = 1 := fun p =>
      checkConnection_of_connected (g := { g with _pwd := p }) hc
    cases op <;>
      simp only [call, confirmPairing, turnOn, turnOff, shoot, stopShoot, setMode,
        setOrientation, setVideoResolution, setVideoFov, setFrameRate, setVideoEncoding,
        setPhotoResolution, localizationOn, localizationOff, deleteLast, deleteAll, hcheck,
        isOn, uint8_one, h3, h4, one_ne_zero, if_false, if_true, ne_eq, not_true_eq_false,
        not_false_eq_true] <;>
      first
      | exact sendRequest_ret_trace c e _ _ _
      | exact ret_ret_trace _ _ _
      | (split <;> first
          | exact sendRequest_ret_trace c e _ _ _
          | exact ret_ret_trace _ _ _
          | exact printRet_ret_trace g p1 p2 _)
      | (rw [setTimeLapseInterval_of_connected c e { g with _pwd := p1 } _ hc,
          setTimeLapseInterval_of_connected c e { g with _pwd := p2 } _ hc]
         exact ⟨rfl, rfl⟩)
      | (rw [setContinuousShot_of_connected c e { g with _pwd := p1 } _ hc,
          setContinuousShot_of_connected c e { g with _pwd := p2 } _ hc]
         exact ⟨rfl, rfl⟩)
      | (simp only [keepAlive, hcheck, one_ne_zero, if_false]
         split_ifs <;> exact ⟨rfl, rfl⟩)

theorem legacy_form_plain (u k pwd : String) (hk : k.length = 2) :
    ∃ cmd b, cmd.length = 2 ∧ u ++ (k ++ "?t=") ++ pwd = u ++ cmd ++ "?t=" ++ pwd ++ b :=
  ⟨k, "", hk, by simp [String.append_assoc]⟩

theorem legacy_form_fixed (u k pwd sfx : String) (hk : k.length = 2) :
    ∃ cmd b, cmd.length = 2 ∧ u ++ (k ++ "?t=") ++ pwd ++ sfx = u ++ cmd ++ "?t=" ++ pwd ++ b :=
  ⟨k, sfx, hk, by simp [String.append_assoc]⟩

theorem legacy_form_token (u k pwd sfx parameter : String) (hk : k.length = 2) :
    ∃ cmd b, cmd.length = 2 ∧
      u ++ (k ++ "?t=") ++ pwd ++ sfx ++ parameter = u ++ cmd ++ "?t=" ++ pwd ++ b :=
  ⟨k, sfx ++ parameter, hk, by simp [String.append_assoc]⟩

theorem modern_form_fixed (u kind rest : String) :
    ∃ b, u ++ (kind ++ rest) = u ++ kind ++ b :=
  ⟨rest, by simp [String.append_assoc]⟩

theorem modern_form_token (u kind rest parameter : String) :
    ∃ b, u ++ (kind ++ rest) ++ parameter = u ++ kind ++ b :=
  ⟨rest ++ parameter, by simp [String.append_assoc]⟩

theorem legacy_request_form (c : Consts) (e : Env) (g : GoProControl)
    (op : Operation) (hlegacy : g._camera = c.HERO3) (request : String)
    (hmem : request ∈ dispatched (call c e g op)) :
    ∃ cmd b, cmd.length = 2 ∧ request = g._url ++ cmd ++ "?t=" ++ g._pwd ++ b := by
  cases hc : g._connected with
  | false =>
    rw [call_of_disconnected c e g op hc] at hmem
    simp [dispatched] at hmem
  | true =>
    have hcheck := checkConnection_of_connected hc
    cases op with
    | confirmPairing =>
      simp only [call, confirmPairing, hcheck, hlegacy, one_ne_zero, if_false, if_true] at hmem
      rw [mem_dispatched_sendRequest hmem]
      exact legacy_form_plain g._url "DL" g._pwd (by decide)
    | turnOn =>
      have hrun : turnOn c e g = ⟨0, g, []⟩ := by
        simp [turnOn, hcheck, isOn, ret]
      simp [call, hrun, dispatched] at hmem
    | turnOff =>
      simp only [call, turnOff, hcheck, isOn, uint8_one, hlegacy, one_ne_zero, if_false,
        if_true] at hmem
      rw [mem_dispatched_sendRequest hmem]
      exact legacy_form_fixed g._url "PW" g._pwd "&p=%00" (by decide)
    | shoot =>
      simp only [call, shoot, hcheck, isOn, uint8_one, hlegacy, one_ne_zero, if_false,
        if_true] at hmem
      rw [mem_dispatched_sendRequest hmem]
      exact legacy_form_fixed g._url "SH" g._pwd "&p=%01" (by decide)
    | stopShoot =>
      simp only [call, stopShoot, hcheck, isOn, uint8_one, hlegacy, one_ne_zero, if_false,
        if_true] at hmem
      rw [mem_dispatched_sendRequest hmem]
      exact legacy_form_fixed g._url "SH" g._pwd "&p=%00" (by decide)
    | setMode option =>
      simp only [call, setMode, hcheck, isOn, uint8_one, hlegacy, one_ne_zero, if_false,
        if_true] at hmem
      cases hs : switch option (setMode_HERO3 c) with
      | none =>
        rw [hs] at hmem
        simp [dispatched_printRet] at hmem
      | some parameter =>
        rw [hs] at hmem
        rw [mem_dispatched_sendRequest hmem]
        exact legacy_form_token g._url "CM" g._pwd "&p=%" parameter (by decide)
    | setOrientation option =>
      simp only [call, setOrientation, hcheck, isOn, uint8_one, hlegacy, one_ne_zero, if_false,
        if_true] at hmem
      cases hs : switch option (setOrientation_HERO3 c) with
      | none =>
        rw [hs] at hmem
        simp [dispatched_printRet] at hmem
      | some parameter =>
        rw [hs] at hmem
        rw [mem_dispatched_sendRequest hmem]
        exact legacy_form_token g._url "UP" g._pwd "&p=%" parameter (by decide)
    | setVideoResolution option =>
      simp only [call, setVideoResolution, hcheck, isOn, uint8_one, hlegacy, one_ne_zero, if_false,
        if_true] at hmem
      cases hs : switch option (setVideoResolution_HERO3 c) with
      | none =>
        rw [hs] at hmem
        simp [dispatched_printRet] at hmem
      | some parameter =>
        rw [hs] at hmem
        rw [mem_dispatched_sendRequest hmem]
        exact legacy_form_token g._url "VR" g._pwd "&p=%" parameter (by decide)
    | setVideoFov option =>
      simp only [call, setVideoFov, hcheck, isOn, uint8_one, hlegacy, one_ne_zero, if_false,
        if_true] at hmem
      cases hs : switch option (setVideoFov_HERO3 c) with
      | none =>
        rw [hs] at hmem
        simp [dispatched_printRet] at hmem
      | some parameter =>
        rw [hs] at hmem
        rw [mem_dispatched_sendRequest hmem]
        exact legacy_form_token g._url "FV" g._pwd "&p=%" parameter (by decide)
    | setFrameRate option =>
      simp only [call, setFrameRate, hcheck, isOn, uint8_one, hlegacy, one_ne_zero, if_false,
        if_true] at hmem
      cases hs : switch option (setFrameRate_HERO3 c) with
      | none =>
        rw [hs] at hmem
        simp [dispatched_printRet] at hmem
      | some parameter =>
        rw [hs] at hmem
        rw [mem_dispatched_sendRequest hmem]
        exact legacy_form_token g._url "FS" g._pwd "&p=%" parameter (by decide)
    | setVideoEncoding option =>
      simp only [call, setVideoEncoding, hcheck, isOn, uint8_one, hlegacy, one_ne_zero, if_false,
        if_true] at hmem
      cases hs : switch option (setVideoEncoding_HERO3 c) with
      | none =>
        rw [hs] at hmem
        simp [dispatched_printRet] at hmem
      | some parameter =>
        rw [hs] at hmem
        rw [mem_dispatched_sendRequest hmem]
        exact legacy_form_token g._url "VM" g._pwd "&p=%" parameter (by decide)
    | setPhotoResolution option =>
      simp only [call, setPhotoResolution, hcheck, isOn, uint8_one, hlegacy, one_ne_zero, if_false,
        if_true] at hmem
      cases hs : switch option (setPhotoResolution_HERO3 c) with
      | none =>
        rw [hs] at hmem
        simp [dispatched_printRet] at hmem
      | some parameter =>
        rw [hs] at hmem
        rw [mem_dispatched_sendRequest hmem]
        exact legacy_form_token g._url "PR" g._pwd "&p=%" parameter (by decide)
    | setTimeLapseInterval option =>
      simp [call, setTimeLapseInterval_of_connected c e g option hc, dispatched] at hmem
    | setContinuousShot option =>
      simp [call, setContinuousShot_of_connected c e g option hc, dispatched] at hmem
    | localizationOn =>
      simp only [call, localizationOn, hcheck, isOn, uint8_one, hlegacy, one_ne_zero, if_false,
        if_true] at hmem
      rw [mem_dispatched_sendRequest hmem]
      exact legacy_form_fixed g._url "LL" g._pwd "&p=%01" (by decide)
    | localizationOff =>
      simp only [call, localizationOff, hcheck, isOn, uint8_one, hlegacy, one_ne_zero, if_false,
        if_true] at hmem
      rw [mem_dispatched_sendRequest hmem]
      exact legacy_form_fixed g._url "LL" g._pwd "&p=%00" (by decide)
    | deleteLast =>
      simp only [call, deleteLast, hcheck, isOn, uint8_one, hlegacy, one_ne_zero, if_false,
        if_true] at hmem
      rw [mem_dispatched_sendRequest hmem]
      exact legacy_form_plain g._url "DL" g._pwd (by decide)
    | deleteAll =>
      simp only [call, deleteAll, hcheck, isOn, uint8_one, hlegacy, one_ne_zero, if_false,
        if_true] at hmem
      rw [mem_dispatched_sendRequest hmem]
      exact legacy_form_plain g._url "DA" g._pwd (by decide)
    | keepAlive =>
      have htrace : (keepAlive c e g).trace = [] := by
        unfold keepAlive
        split_ifs <;> simp [ret]
      simp [call, dispatched, htrace] at hmem

theorem modern_request_form (c : Consts) (e : Env) (g : GoProControl)
    (op : Operation) (h3 : g._camera ≠ c.HERO3) (h4 : g._camera ≥ c.HERO4) (request : String)
    (hmem : request ∈ dispatched (call c e g op)) :
    (∃ b, request = g._url ++ "command/" ++ b) ∨ (∃ b, request = g._url ++ "setting/" ++ b) := by
  cases hc : g._connected with
  | false =>
    rw [call_of_disconnected c e g op hc] at hmem
    simp [dispatched] at hmem
  | true =>
    have hcheck := checkConnection_of_connected hc
    cases op with
    | confirmPairing =>
      simp only [call, confirmPairing, hcheck, isOn, uint8_one, h3, h4, one_ne_zero, if_false,
        if_true] at hmem
      rw [mem_dispatched_sendRequest hmem]
      exact Or.inl (modern_form_fixed g._url "command/" "wireless/pair/complete?success=1&deviceName=ESPBoard")
    | turnOn =>
      have hrun : turnOn c e g = ⟨0, g, []⟩ := by
        simp [turnOn, hcheck, isOn, ret]
      simp [call, hrun, dispatched] at hmem
    | turnOff =>
      simp only [call, turnOff, hcheck, isOn, uint8_one, h3, h4, one_ne_zero, if_false,
        if_true] at hmem
      rw [mem_dispatched_sendRequest hmem]
      exact Or.inl (modern_form_fixed g._url "command/" "system/sleep")
    | shoot =>
      simp only [call, shoot, hcheck, isOn, uint8_one, h3, h4, one_ne_zero, if_false,
        if_true] at hmem
      rw [mem_dispatched_sendRequest hmem]
      exact Or.inl (modern_form_fixed g._url "command/" "shutter?p=1")
    | stopShoot =>
      simp only [call, stopShoot, hcheck, isOn, uint8_one, h3, h4, one_ne_zero, if_false,
        if_true] at hmem
      rw [mem_dispatched_sendRequest hmem]
      exact Or.inl (modern_form_fixed g._url "command/" "shutter?p=0")
    | setMode option =>
      simp only [call, setMode, hcheck, isOn, uint8_one, h3, h4, one_ne_zero, if_false,
        if_true] at hmem
      cases hs : switch option (setMode_HERO4 c) with
      | none =>
        rw [hs] at hmem
        simp [dispatched_printRet] at hmem
      | some parameter =>
        rw [hs] at hmem
        rw [mem_dispatched_sendRequest hmem]
        exact Or.inl (modern_form_token g._url "command/" "mode?p=" parameter)
    | setOrientation option =>
      simp only [call, setOrientation, hcheck, isOn, uint8_one, h3, h4, one_ne_zero, if_false,
        if_true] at hmem
      cases hs : switch option (setOrientation_HERO4 c) with
      | none =>
        rw [hs] at hmem
        simp [dispatched_printRet] at hmem
      | some parameter =>
        rw [hs] at hmem
        rw [mem_dispatched_sendRequest hmem]
        exact Or.inr (modern_form_token g._url "setting/" "52/" parameter)
    | setVideoResolution option =>
      simp only [call, setVideoResolution, hcheck, isOn, uint8_one, h3, h4, one_ne_zero, if_false,
        if_true] at hmem
      cases hs : switch option (setVideoResolution_HERO4 c) with
      | none =>
        rw [hs] at hmem
        simp [dispatched_printRet] at hmem
      | some parameter =>
        rw [hs] at hmem
        rw [mem_dispatched_sendRequest hmem]
        exact Or.inr (modern_form_token g._url "setting/" "2/" parameter)
    | setVideoFov option =>
      simp only [call, setVideoFov, hcheck, isOn, uint8_one, h3, h4, one_ne_zero, if_false,
        if_true] at hmem
      cases hs : switch option (setVideoFov_HERO4 c) with
      | none =>
        rw [hs] at hmem
        simp [dispatched_printRet] at hmem
      | some parameter =>
        rw [hs] at hmem
        rw [mem_dispatched_sendRequest hmem]
        exact Or.inr (modern_form_token g._url "setting/" "4/" parameter)
    | setFrameRate option =>
      simp only [call, setFrameRate, hcheck, isOn, uint8_one, h3, h4, one_ne_zero, if_false,
        if_true] at hmem
      cases hs : switch option (setFrameRate_HERO4 c) with
      | none =>
        rw [hs] at hmem
        simp [dispatched_printRet] at hmem
      | some parameter =>
        rw [hs] at hmem
        rw [mem_dispatched_sendRequest hmem]
        exact Or.inr (modern_form_token g._url "setting/" "3/" parameter)
    | setVideoEncoding option =>
      simp only [call, setVideoEncoding, hcheck, isOn, uint8_one, h3, h4, one_ne_zero, if_false,
        if_true] at hmem
      cases hs : switch option (setVideoEncoding_HERO4 c) with
      | none =>
        rw [hs] at hmem
        simp [dispatched_printRet] at hmem
      | some parameter =>
        rw [hs] at hmem
        rw [mem_dispatched_sendRequest hmem]
        exact Or.inr (modern_form_token g._url "setting/" "57/" parameter)
    | setPhotoResolution option =>
      simp only [call, setPhotoResolution, hcheck, isOn, uint8_one, h3, h4, one_ne_zero, if_false,
        if_true] at hmem
      cases hs : switch option (setPhotoResolution_HERO4 c) with
      | none =>
        rw [hs] at hmem
        simp [dispatched_printRet] at hmem
      | some parameter =>
        rw [hs] at hmem
        rw [mem_dispatched_sendRequest hmem]
        exact Or.inr (modern_form_token g._url "setting/" "17/" parameter)
    | setTimeLapseInterval option =>
      simp [call, setTimeLapseInterval_of_connected c e g option hc, dispatched] at hmem
    | setContinuousShot option =>
      simp [call, setContinuousShot_of_connected c e g option hc, dispatched] at hmem
    | localizationOn =>
      simp only [call, localizationOn, hcheck, isOn, uint8_one, h3, h4, one_ne_zero, if_false,
        if_true] at hmem
      rw [mem_dispatched_sendRequest hmem]
      exact Or.inl (modern_form_fixed g._url "command/" "system/locate?p=1")
    | localizationOff =>
      simp only [call, localizationOff, hcheck, isOn, uint8_one, h3, h4, one_ne_zero, if_false,
        if_true] at hmem
      rw [mem_dispatched_sendRequest hmem]
      exact Or.inl (modern_form_fixed g._url "command/" "system/locate?p=0")
    | deleteLast =>
      simp only [call, deleteLast, hcheck, isOn, uint8_one, h3, h4, one_ne_zero, if_false,
        if_true] at hmem
      rw [mem_dispatched_sendRequest hmem]
      exact Or.inl (modern_form_fixed g._url "command/" "storage/delete/last")
    | deleteAll =>
      simp only [call, deleteAll, hcheck, isOn, uint8_one, h3, h4, one_ne_zero, if_false,
        if_true] at hmem
      rw [mem_dispatched_sendRequest hmem]
      exact Or.inl (modern_form_fixed g._url "command/" "command/storage/delete/all")
    | keepAlive =>
      have htrace : (keepAlive c e g).trace = [] := by
        unfold keepAlive
        split_ifs <;> simp [ret]
      simp [call, dispatched, htrace] at hmem

theorem mem_dispatched_iff (r : Result) (request : String) :
    request ∈ dispatched r ↔ Event.httpGet request ∈ r.trace := by
  unfold dispatched
  rw [List.mem_filterMap]
  constructor
  · rintro ⟨ev, hev, hsome⟩
    cases ev <;> simp at hsome
    subst hsome
    exact hev
  · intro h
    exact ⟨Event.httpGet request, h, rfl⟩

theorem sendRequest_frame (c : Consts) (e : Env) (g : GoProControl) (request : String) :
    (sendRequest c e g request).state._url = g._url ∧
    (sendRequest c e g request).state._pwd = g._pwd ∧
    (sendRequest c e g request).state._camera = g._camera := by
  simp only [sendRequest]
  split_ifs <;> exact ⟨rfl, rfl, rfl⟩

theorem call_frame (c : Consts) (e : Env) (g : GoProControl) (op : Operation) :
    (call c e g op).state._url = g._url ∧ (call c e g op).state._pwd = g._pwd ∧
    (call c e g op).state._camera = g._camera := by
  cases op <;>
    simp only [call, confirmPairing, turnOn, turnOff, shoot, stopShoot, setMode,
      setOrientation, setVideoResolution, setVideoFov, setFrameRate, setVideoEncoding,
      setPhotoResolution, setTimeLapseInterval, setContinuousShot, localizationOn,
      localizationOff, deleteLast, deleteAll, keepAlive] <;>
    (repeat' split) <;>
    first
    | exact sendRequest_frame c e g _
    | exact ⟨rfl, rfl, rfl⟩

theorem begin_frame (c : Consts) (e : Env) (fuel : Nat) (g : GoProControl) (r : Result)
    (h : begin c e fuel g = some r) :
    r.state._url = g._url ∧ r.state._pwd = g._pwd ∧ r.state._camera = g._camera ∧
    ∀ request, Event.httpGet request ∉ r.trace := by
  unfold begin at h
  split_ifs at h with h1 h2
  · simp only [Option.some.injEq] at h
    subst h
    simp [ret]
  · simp only [Option.some.injEq] at h
    subst h
    simp [ret]
  · split at h
    · exact absurd h (by simp)
    · have hprint : ∀ request, Event.httpGet request ∉ debugPrint g := by
        intro request
        unfold debugPrint
        cases g._debug_port <;> simp
      split_ifs at h <;> simp only [Option.some.injEq] at h <;> subst h <;> simp [hprint]

theorem step_frame (c : Consts) (g g1 : GoProControl) (st : Step) (tr : List Event)
    (h : st.run c g = some (g1, tr)) :
    g1._url = g._url ∧ g1._pwd = g._pwd ∧ g1._camera = g._camera ∧
    ∀ request, Event.httpGet request ∈ tr → ∃ e op, request ∈ dispatched (call c e g op) := by
  cases st with
  | begin e fuel =>
    simp only [Step.run, Option.map_eq_some'] at h
    obtain ⟨r, hr, heq⟩ := h
    simp only [Prod.mk.injEq] at heq
    obtain ⟨hg, ht⟩ := heq
    subst hg ht
    obtain ⟨hu, hp, hcam, hno⟩ := begin_frame c e fuel g r hr
    exact ⟨hu, hp, hcam, fun request hmem => absurd hmem (hno request)⟩
  | «end» =>
    simp only [Step.run, «end», Option.some.injEq] at h
    split_ifs at h <;> simp only [Prod.mk.injEq] at h <;> obtain ⟨hg, ht⟩ := h <;>
      subst hg ht <;> simp
  | op e o =>
    simp only [Step.run, Option.some.injEq, Prod.mk.injEq] at h
    obtain ⟨hg, ht⟩ := h
    subst hg ht
    obtain ⟨hu, hp, hcam⟩ := call_frame c e g o
    exact ⟨hu, hp, hcam, fun request hmem => ⟨e, o, (mem_dispatched_iff _ _).2 hmem⟩⟩

theorem runSteps_requests (c : Consts) (steps : List Step) :
    ∀ (g g1 : GoProControl) (tr : List Event), runSteps c g steps = some (g1, tr) →
      ∀ request, Event.httpGet request ∈ tr →
        ∃ gi e op, gi._url = g._url ∧ gi._pwd = g._pwd ∧ gi._camera = g._camera ∧
          request ∈ dispatched (call c e gi op) := by
  induction steps with
  | nil =>
    intro g g1 tr h request hmem
    simp only [runSteps, Option.some.injEq, Prod.mk.injEq] at h
    obtain ⟨_, ht⟩ := h
    subst ht
    simp at hmem
  | cons st rest ih =>
    intro g g1 tr h request hmem
    simp only [runSteps] at h
    cases hst : st.run c g with
    | none => simp [hst] at h
    | some res =>
      obtain ⟨g2, tr2⟩ := res
      simp only [hst] at h
      cases hrest : runSteps c g2 rest with
      | none => simp [hrest] at h
      | some res2 =>
        obtain ⟨g3, tr3⟩ := res2
        simp only [hrest, Option.some.injEq, Prod.mk.injEq] at h
        obtain ⟨_, ht⟩ := h
        subst ht
        obtain ⟨hu, hp, hcam, hreq⟩ := step_frame c g g2 st tr2 hst
        rcases List.mem_append.1 hmem with hm | hm
        · obtain ⟨e, op, hd⟩ := hreq request hm
          exact ⟨g, e, op, rfl, rfl, rfl, hd⟩
        · obtain ⟨gi, e, op, hu1, hp1, hcam1, hd⟩ := ih g2 g3 tr3 hrest request hm
          exact ⟨gi, e, op, hu1.trans hu, hp1.trans hp, hcam1.trans hcam, hd⟩

theorem request_ne_empty (host rest : String) : "http://" ++ host ++ rest ≠ "" := by
  intro h
  have hlen := congrArg String.length h
  simp only [String.length_append] at hlen
  have h7 : "http://".length = 7 := by decide
  have h0 : "".length = 0 := by decide
  omega

theorem scheme_prefix_disjoint (host x y : String) :
    "http://" ++ host ++ "/camera/" ++ x ≠ "http://" ++ host ++ "/gp/gpControl/" ++ y := by
  intro h
  have hdata := congrArg String.data h
  simp only [String.data_append, List.append_assoc, List.append_cancel_left_eq] at hdata
  simp at hdata

theorem call_invalid_option (c : Consts) (e : Env) (g : GoProControl) (s : Setting)
    (d : Dialect) (option : Nat) (hconnected : g._connected = true)
    (hdialect : dialect c g._camera = some d) (hoption : option ∉ s.cases c d) :
    call c e g (s.op option) = printRet g (-1) := by
  have hcheck := checkConnection_of_connected hconnected
  have hnone := switch_eq_none hoption
  cases d with
  | legacy =>
    have hcam : g._camera = c.HERO3 := by
      by_contra hne
      by_cases h4 : g._camera ≥ c.HERO4 <;> simp [dialect, hne, h4] at hdialect
    cases s <;>
      simp only [Setting.table] at hnone <;>
      simp only [call, Setting.op, setMode, setOrientation, setVideoResolution, setVideoFov,
        setFrameRate, setVideoEncoding, setPhotoResolution, hcheck, isOn, uint8_one, hcam,
        hnone, one_ne_zero, if_false, if_true]
  | modern =>
    have hcam : g._camera ≠ c.HERO3 ∧ g._camera ≥ c.HERO4 := by
      by_cases h3 : g._camera = c.HERO3
      · simp [dialect, h3] at hdialect
      · by_cases h4 : g._camera ≥ c.HERO4
        · exact ⟨h3, h4⟩
        · simp [dialect, h3, h4] at hdialect
    cases s <;>
      simp only [Setting.table] at hnone <;>
      simp only [call, Setting.op, setMode, setOrientation, setVideoResolution, setVideoFov,
        setFrameRate, setVideoEncoding, setPhotoResolution, hcheck, isOn, uint8_one, hcam.1,
        hcam.2, hnone, one_ne_zero, if_false, if_true, ge_iff_le]

/-! ## The claims -/

/-- C1. Status classification by `sendRequest`: when the transport connects,
the value returned is 1 (Accepted) for status 200, 255 (AuthRejected) for 403,
254 (CommandFailed) for 410 and 253 (UnknownError) for every other status, for
every request and every status that fits the `uint16_t` it is read into; the
four values are pairwise distinct. -/
theorem C1_sendRequest_classifies_status (c : Consts) (e : Env) (g : GoProControl)
    (request : String) (hconnect : e.connect = true) (hstatus : e.responseStatusCode < 65536) :
    (e.responseStatusCode = 200 → (sendRequest c e g request).ret = 1) ∧
    (e.responseStatusCode = 403 → (sendRequest c e g request).ret = 255) ∧
    (e.responseStatusCode = 410 → (sendRequest c e g request).ret = 254) ∧
    (e.responseStatusCode ≠ 200 → e.responseStatusCode ≠ 403 → e.responseStatusCode ≠ 410 →
      (sendRequest c e g request).ret = 253) ∧
    [uint8 1, uint8 (-1), uint8 (-2), uint8 (-3)] = [1, 255, 254, 253] ∧
    [uint8 1, uint8 (-1), uint8 (-2), uint8 (-3)].Nodup := by
  have hmod : uint16 e.responseStatusCode = e.responseStatusCode := Nat.mod_eq_of_lt hstatus
  have hrun : (sendRequest c e g request).ret =
      if e.responseStatusCode = 200 then 1 else if e.responseStatusCode = 403 then 255
      else if e.responseStatusCode = 410 then 254 else 253 := by
    simp only [sendRequest, hconnect, hmod, Bool.not_true, Bool.false_eq_true, if_false]
    split_ifs <;> simp
  refine ⟨?_, ?_, ?_, ?_, by simp, by simp⟩
  · intro h
    simp [hrun, h]
  · intro h
    simp [hrun, h]
  · intro h
    simp [hrun, h]
  · intro h1 h2 h3
    simp [hrun, h1, h2, h3]

/-- Witness of C1 at status 999: the outcome is 253 (UnknownError). -/
theorem C1_sendRequest_classifies_status_witness :
    (sendRequest sampleConsts (sampleEnv 999 0)
      (GoProControl.GoProControl sampleConsts "ssid" "pwd" 3) "x").ret = 253 :=
  (C1_sendRequest_classifies_status sampleConsts (sampleEnv 999 0)
    (GoProControl.GoProControl sampleConsts "ssid" "pwd" 3) "x" rfl (by decide)).2.2.2.1
    (by decide) (by decide) (by decide)

/-- C2. Invalid options never reach the transport: for each of the seven
setting operations, every camera model for which a dialect is selected and
every option that is not a case of that dialect's table, the call on a
connected client makes the unguarded print of the `default:` branch and then
`return -1`: it invokes the transport not at all, dispatches no request and
leaves the client, in particular `_connected` and `_last_request`, as it
was.  On a client whose `_debug_port` is set it returns 255 (InvalidOption)
and makes no call at all; on a client whose `_debug_port` is unset the print
goes through the unset pointer, so the behaviour of the call is undefined
where the claim has it return 255. -/
theorem C2_invalid_option_not_dispatched (c : Consts) (e : Env) (g : GoProControl)
    (s : Setting) (d : Dialect) (option : Nat) (hconnected : g._connected = true)
    (hdialect : dialect c g._camera = some d) (hoption : option ∉ s.cases c d) :
    call c e g (s.op option) = ⟨255, g, debugPrint g⟩ ∧
    connects (call c e g (s.op option)) = 0 ∧
    dispatched (call c e g (s.op option)) = [] ∧
    (∀ port, g._debug_port = some port → call c e g (s.op option) = ⟨255, g, []⟩) ∧
    (g._debug_port = none →
      call c e g (s.op option) = ⟨255, g, [Event.debugPortUnset]⟩) := by
  have hrun := call_invalid_option c e g s d option hconnected hdialect hoption
  rw [hrun]
  refine ⟨by simp [printRet], connects_printRet g (-1), dispatched_printRet g (-1), ?_, ?_⟩
  · intro port hport
    simp [printRet, debugPrint, hport]
  · intro hport
    simp [printRet, debugPrint, hport]

/-- Witness of C2, at the failing input: `setFrameRate` with the option
`FR_90`, which the HERO3 table lacks, on a connected HERO3 client on which
`enableDebug` was never called goes through the unset `_debug_port`. -/
theorem C2_invalid_option_not_dispatched_witness :
    call sampleConsts (sampleEnv 200 3) (connectedClient sampleConsts "ssid" "secret" 3 7)
      (Operation.setFrameRate 4) =
    ⟨255, connectedClient sampleConsts "ssid" "secret" 3 7, [Event.debugPortUnset]⟩ :=
  (C2_invalid_option_not_dispatched sampleConsts (sampleEnv 200 3)
    (connectedClient sampleConsts "ssid" "secret" 3 7) Setting.setFrameRate Dialect.legacy 4
    rfl (by decide) (by decide)).2.2.2.2 rfl

/-- C3. No request is dispatched while disconnected: each of the nineteen
public operations, for every camera model and every argument, called on a
disconnected client makes no capability call and leaves the client unchanged
(and returns 0). -/
theorem C3_disconnected_dispatches_nothing (c : Consts) (e : Env) (g : GoProControl)
    (op : Operation) (hdisconnected : g._connected = false) :
    call c e g op = ⟨0, g, []⟩ := by
  have hcheck := checkConnection_of_disconnected hdisconnected
  cases op <;>
    simp [call, confirmPairing, turnOn, turnOff, shoot, stopShoot, setMode, setOrientation,
      setVideoResolution, setVideoFov, setFrameRate, setVideoEncoding, setPhotoResolution,
      setTimeLapseInterval, setContinuousShot, localizationOn, localizationOff, deleteLast,
      deleteAll, keepAlive, hcheck, ret]

/-- Witness of C3: `deleteAll` on a freshly constructed HERO4 client. -/
theorem C3_disconnected_dispatches_nothing_witness :
    call sampleConsts (sampleEnv 200 3) (GoProControl.GoProControl sampleConsts "ssid" "pwd" 4)
      Operation.deleteAll =
    ⟨0, GoProControl.GoProControl sampleConsts "ssid" "pwd" 4, []⟩ :=
  C3_disconnected_dispatches_nothing sampleConsts (sampleEnv 200 3)
    (GoProControl.GoProControl sampleConsts "ssid" "pwd" 4) Operation.deleteAll rfl

/-- C4. `shoot` request encoding: on a connected HERO3 client `shoot` hands
`sendRequest` exactly "http://" + host + "/camera/SH?t=" + password + "&p=%01",
and on a connected client of a model at or above HERO4 exactly
"http://" + host + "/gp/gpControl/command/shutter?p=1"; when the transport
connects, that string is the one request dispatched. -/
theorem C4_shoot_request (c : Consts) (e : Env) (ssid pwd : String) (camera t : Nat)
    (horder : c.HERO3 < c.HERO4) (hmodern : c.HERO4 ≤ camera) :
    shoot c e (connectedClient c ssid pwd c.HERO3 t) =
      sendRequest c e (connectedClient c ssid pwd c.HERO3 t)
        ("http://" ++ c._host ++ "/camera/SH?t=" ++ pwd ++ "&p=%01") ∧
    dispatched (shoot c { e with connect := true } (connectedClient c ssid pwd c.HERO3 t)) =
      ["http://" ++ c._host ++ "/camera/SH?t=" ++ pwd ++ "&p=%01"] ∧
    shoot c e (connectedClient c ssid pwd camera t) =
      sendRequest c e (connectedClient c ssid pwd camera t)
        ("http://" ++ c._host ++ "/gp/gpControl/command/shutter?p=1") ∧
    dispatched (shoot c { e with connect := true } (connectedClient c ssid pwd camera t)) =
      ["http://" ++ c._host ++ "/gp/gpControl/command/shutter?p=1"] := by
  have hne : camera ≠ c.HERO3 := by omega
  have hlegacy : "/camera/SH?t=" = "/camera/" ++ "SH?t=" := by decide
  have hpath : "/gp/gpControl/command/shutter?p=1" = "/gp/gpControl/" ++ "command/shutter?p=1" := by
    decide
  have h3 : ∀ e1 : Env, shoot c e1 (connectedClient c ssid pwd c.HERO3 t) =
      sendRequest c e1 (connectedClient c ssid pwd c.HERO3 t)
        ("http://" ++ c._host ++ "/camera/SH?t=" ++ pwd ++ "&p=%01") := by
    intro e1
    rw [hlegacy]
    simp [shoot, connectedClient, GoProControl.GoProControl, checkConnection, getStatus, isOn,
      String.append_assoc]
  have h4 : ∀ e1 : Env, shoot c e1 (connectedClient c ssid pwd camera t) =
      sendRequest c e1 (connectedClient c ssid pwd camera t)
        ("http://" ++ c._host ++ "/gp/gpControl/command/shutter?p=1") := by
    intro e1
    rw [hpath]
    simp [shoot, connectedClient, GoProControl.GoProControl, checkConnection, getStatus, isOn,
      String.append_assoc, hne, hmodern]
  refine ⟨h3 e, ?_, h4 e, ?_⟩
  · rw [h3, dispatched_sendRequest]
  · rw [h4, dispatched_sendRequest]

/-- Witness of C4: the request dispatched by `shoot` on a connected HERO5
client of the sample constants. -/
theorem C4_shoot_request_witness :
    dispatched (shoot sampleConsts { sampleEnv 200 3 with connect := true }
      (connectedClient sampleConsts "ssid" "secret" 5 0)) =
    ["http://" ++ sampleConsts._host ++ "/gp/gpControl/command/shutter?p=1"] :=
  (C4_shoot_request sampleConsts (sampleEnv 200 3) "ssid" "secret" 5 0
    (by decide) (by decide)).2.2.2

/-- C5. 4K resolution is dialect-dependent: on a connected client of a model
at or above HERO4 `setVideoResolution(VR_4K)` hands `sendRequest` the base URL
followed by "setting/2/1", which is the request dispatched when the transport
connects; on a connected HERO3 client, whose table has no case `VR_4K`, it
makes the unguarded print of the `default:` branch and then `return -1`,
dispatching nothing and leaving the client as it was: once `enableDebug` has
set `_debug_port` it returns 255 (InvalidOption) and makes no call at all, but
while `_debug_port` is unset the print goes through the unset pointer, so the
behaviour of the call is undefined where the claim has it return 255. -/
theorem C5_setVideoResolution_4K (c : Consts) (e : Env) (ssid pwd : String) (camera t : Nat)
    (horder : c.HERO3 < c.HERO4) (hmodern : c.HERO4 ≤ camera)
    (h4K : c.VR_4K ≠ c.VR_1080p ∧ c.VR_4K ≠ c.VR_960p ∧ c.VR_4K ≠ c.VR_720p ∧
      c.VR_4K ≠ c.VR_WVGA) :
    setVideoResolution c e (connectedClient c ssid pwd camera t) c.VR_4K =
      sendRequest c e (connectedClient c ssid pwd camera t)
        ("http://" ++ c._host ++ "/gp/gpControl/" ++ "setting/2/1") ∧
    dispatched (setVideoResolution c { e with connect := true }
      (connectedClient c ssid pwd camera t) c.VR_4K) =
      ["http://" ++ c._host ++ "/gp/gpControl/" ++ "setting/2/1"] ∧
    setVideoResolution c e (connectedClient c ssid pwd c.HERO3 t) c.VR_4K =
      ⟨255, connectedClient c ssid pwd c.HERO3 t,
        debugPrint (connectedClient c ssid pwd c.HERO3 t)⟩ ∧
    dispatched (setVideoResolution c e (connectedClient c ssid pwd c.HERO3 t) c.VR_4K) = [] ∧
    (∀ port, setVideoResolution c e (enableDebug (connectedClient c ssid pwd c.HERO3 t) port)
        c.VR_4K =
      ⟨255, enableDebug (connectedClient c ssid pwd c.HERO3 t) port, []⟩) ∧
    (c._debug_port = none →
      setVideoResolution c e (connectedClient c ssid pwd c.HERO3 t) c.VR_4K =
        ⟨255, connectedClient c ssid pwd c.HERO3 t, [Event.debugPortUnset]⟩) := by
  have hne : camera ≠ c.HERO3 := by omega
  have h4 : ∀ e1 : Env, setVideoResolution c e1 (connectedClient c ssid pwd camera t) c.VR_4K =
      sendRequest c e1 (connectedClient c ssid pwd camera t)
        ("http://" ++ c._host ++ "/gp/gpControl/" ++ "setting/2/1") := by
    intro e1
    simp [setVideoResolution, connectedClient, GoProControl.GoProControl, checkConnection,
      getStatus, isOn, String.append_assoc, hne, hmodern, setVideoResolution_HERO4, switch]
  have hnone : switch c.VR_4K (setVideoResolution_HERO3 c) = none :=
    switch_eq_none (by simp [setVideoResolution_HERO3, h4K])
  have h3 : ∀ g : GoProControl, g._connected = true → g._camera = c.HERO3 →
      setVideoResolution c e g c.VR_4K = printRet g (-1) := by
    intro g hconnected hcam
    simp only [setVideoResolution, checkConnection_of_connected hconnected, isOn, uint8_one,
      hcam, hnone, one_ne_zero, if_false, if_true]
  have hlegacy := h3 (connectedClient c ssid pwd c.HERO3 t) rfl rfl
  refine ⟨h4 e, ?_, ?_, ?_, ?_, ?_⟩
  · rw [h4, dispatched_sendRequest]
  · rw [hlegacy]
    simp [printRet]
  · rw [hlegacy]
    exact dispatched_printRet _ _
  · intro port
    rw [h3 (enableDebug (connectedClient c ssid pwd c.HERO3 t) port) rfl rfl]
    simp [printRet, debugPrint, enableDebug]
  · intro hport
    rw [hlegacy]
    simp [printRet, debugPrint, connectedClient, GoProControl.GoProControl, hport]

/-- Witness of C5, at the failing input: `VR_4K` on a connected HERO3 client
of the sample constants, on which `enableDebug` was never called, goes through
the unset `_debug_port`. -/
theorem C5_setVideoResolution_4K_witness :
    setVideoResolution sampleConsts (sampleEnv 200 3)
      (connectedClient sampleConsts "ssid" "secret" sampleConsts.HERO3 7) sampleConsts.VR_4K =
    ⟨255, connectedClient sampleConsts "ssid" "secret" sampleConsts.HERO3 7,
      [Event.debugPortUnset]⟩ :=
  (C5_setVideoResolution_4K sampleConsts (sampleEnv 200 3) "ssid" "secret" 4 7
    (by decide) (by decide) (by decide)).2.2.2.2.2 rfl

/-- C6. Transport connect failure: for every request and every client, when
`_client.connect` fails `sendRequest` returns 0 (NotConnected), sets
`_connected` to false, issues no GET (its only capability call is the failed
connect), and leaves `_last_request` unchanged. -/
theorem C6_sendRequest_connect_failure (c : Consts) (e : Env) (g : GoProControl)
    (request : String) (hfail : e.connect = false) :
    sendRequest c e g request =
      ⟨0, { g with _connected := false }, [Event.clientConnect c._host c._port]⟩ ∧
    (sendRequest c e g request).ret = 0 ∧
    (sendRequest c e g request).state._connected = false ∧
    dispatched (sendRequest c e g request) = [] ∧
    (sendRequest c e g request).state._last_request = g._last_request := by
  have hrun : sendRequest c e g request =
      ⟨0, { g with _connected := false }, [Event.clientConnect c._host c._port]⟩ := by
    simp [sendRequest, hfail]
  rw [hrun]
  simp [dispatched]

/-- Witness of C6: a failed connect on a connected HERO3 client. -/
theorem C6_sendRequest_connect_failure_witness :
    (sendRequest sampleConsts { sampleEnv 200 3 with connect := false }
      (connectedClient sampleConsts "ssid" "secret" 3 7) "x").state._connected = false :=
  (C6_sendRequest_connect_failure sampleConsts { sampleEnv 200 3 with connect := false }
    (connectedClient sampleConsts "ssid" "secret" 3 7) "x" rfl).2.2.1

/-- C7. `begin` while already connected: for every camera model and whatever
the WiFi would answer, `begin` on a connected client returns 0 (already
connected) without calling `WiFi.begin` and leaves the client connected; so
when a first `begin` has returned 1, the client is connected and a second
`begin` right after it makes no capability call. -/
theorem C7_begin_when_connected (c : Consts) (e1 e2 : Env) (fuel1 fuel2 : Nat)
    (g : GoProControl) :
    (g._connected = true → begin c e2 fuel2 g = some ⟨0, g, []⟩) ∧
    (∀ r, begin c e1 fuel1 g = some r → r.ret = 1 →
      r.state._connected = true ∧ begin c e2 fuel2 r.state = some ⟨0, r.state, []⟩) := by
  have hconnected : ∀ g1 : GoProControl, g1._connected = true →
      begin c e2 fuel2 g1 = some ⟨0, g1, []⟩ := by
    intro g1 h
    simp [begin, checkConnection_of_connected h, ret]
  refine ⟨hconnected g, ?_⟩
  intro r hr hret
  have hstate : r.state._connected = true := by
    unfold begin at hr
    split_ifs at hr with h1 h2
    · simp only [Option.some.injEq] at hr
      subst hr
      simp [ret] at hret
    · simp only [Option.some.injEq] at hr
      subst hr
      simp [ret] at hret
    · split at hr
      · exact absurd hr (by simp)
      · split_ifs at hr with h3 h4
        · simp only [Option.some.injEq] at hr
          subst hr
          rfl
        · simp only [Option.some.injEq] at hr
          subst hr
          simp at hret
        · simp only [Option.some.injEq] at hr
          subst hr
          simp at hret
  exact ⟨hstate, hconnected r.state hstate⟩

/-- Witness of C7: a second `begin` on a client connected by a first one. -/
theorem C7_begin_when_connected_witness :
    begin sampleConsts (sampleEnv 200 3) 2
      { GoProControl.GoProControl sampleConsts "ssid" "pwd" 3 with _connected := true } =
    some ⟨0, { GoProControl.GoProControl sampleConsts "ssid" "pwd" 3 with _connected := true },
      []⟩ :=
  ((C7_begin_when_connected sampleConsts (sampleEnv 200 3) (sampleEnv 200 3) 2 2
    (GoProControl.GoProControl sampleConsts "ssid" "pwd" 3)).2
    ⟨1, { GoProControl.GoProControl sampleConsts "ssid" "pwd" 3 with _connected := true },
      [Event.wifiBegin "ssid" "pwd"]⟩ (by decide) rfl).2

/-- C8. `begin` on an unsupported model: for every camera model at or below
HERO2, `begin` on a disconnected client returns 255 (UnsupportedModel), never
calls `WiFi.begin`, and leaves the client disconnected and unchanged; it does
so whatever the WiFi would answer and without waiting for it. -/
theorem C8_begin_unsupported_model (c : Consts) (e : Env) (fuel : Nat) (g : GoProControl)
    (hdisconnected : g._connected = false) (hmodel : g._camera ≤ c.HERO2) :
    begin c e fuel g = some ⟨255, g, []⟩ := by
  simp [begin, checkConnection_of_disconnected hdisconnected, hmodel, ret]

/-- Witness of C8: `begin` on a freshly constructed HERO2 client. -/
theorem C8_begin_unsupported_model_witness :
    begin sampleConsts (sampleEnv 200 3) 0 (GoProControl.GoProControl sampleConsts "ssid" "pwd" 2) =
    some ⟨255, GoProControl.GoProControl sampleConsts "ssid" "pwd" 2, []⟩ :=
  C8_begin_unsupported_model sampleConsts (sampleEnv 200 3) 0
    (GoProControl.GoProControl sampleConsts "ssid" "pwd" 2) rfl (by decide)

/-- C9. `begin` follows the WiFi association: for every camera model for which
a dialect is selected (the header ranking HERO2 below HERO3 and HERO4), when
`WiFi.status()` is idle for its first `k` calls and `s`, not idle, from then
on, `begin` on a disconnected client returns once it may make more than `k`
calls, having called `WiFi.begin` once; if `s` is connected it returns 1 and
the client is connected; if `s` is failed it returns 254 (ConnectFailed) and
the client stays disconnected; and the client is connected afterwards exactly
when `s` is connected.  For these two statuses `WiFi.begin` is the only call
made; for any other status the unguarded print of the last branch follows
it. -/
theorem C9_begin_follows_association (c : Consts) (e : Env) (fuel k s : Nat)
    (g : GoProControl) (hdisconnected : g._connected = false)
    (hsupported : (dialect c g._camera).isSome = true)
    (h23 : c.HERO2 < c.HERO3) (h24 : c.HERO2 < c.HERO4)
    (hstatus : c.WL_CONNECTED ≠ c.WL_CONNECT_FAILED)
    (hidle : ∀ i, i < k → e.wifiStatus i = c.WL_IDLE_STATUS)
    (hsettled : ∀ i, k ≤ i → e.wifiStatus i = s) (hs : s ≠ c.WL_IDLE_STATUS)
    (hfuel : k < fuel) :
    ∃ r, begin c e fuel g = some r ∧
      r.trace = Event.wifiBegin g._ssid g._pwd ::
        (if s = c.WL_CONNECTED ∨ s = c.WL_CONNECT_FAILED then [] else debugPrint g) ∧
      (s = c.WL_CONNECTED → r.ret = 1 ∧ r.state = { g with _connected := true }) ∧
      (s = c.WL_CONNECT_FAILED → r.ret = 254 ∧ r.state = g) ∧
      (r.state._connected = true ↔ s = c.WL_CONNECTED) := by
  have hcam : ¬ g._camera ≤ c.HERO2 := by
    by_cases h3 : g._camera = c.HERO3
    · omega
    · by_cases h4 : g._camera ≥ c.HERO4
      · omega
      · simp [dialect, h3, h4] at hsupported
  have hleft : e.wifiStatus k ≠ c.WL_IDLE_STATUS := by
    rw [hsettled k (le_refl k)]
    exact hs
  have hloop := awaitStatus_settles c e k hidle hleft fuel 0 (Nat.zero_le k) (by omega)
  have hk1 := hsettled (k + 1) (by omega)
  have hk2 := hsettled (k + 1 + 1) (by omega)
  have hg : ({ g with _connected := false } : GoProControl) = g := by
    cases g
    simp_all
  by_cases hc : s = c.WL_CONNECTED
  · refine ⟨⟨1, { g with _connected := true }, [Event.wifiBegin g._ssid g._pwd]⟩, ?_,
      by simp [hc], ?_, ?_, ?_⟩
    · simp [begin, checkConnection_of_disconnected hdisconnected, hcam, hloop, hk1, hc]
    · intro _
      exact ⟨rfl, rfl⟩
    · intro hf
      exact absurd (hc.symm.trans hf) hstatus
    · simp [hc]
  · by_cases hf : s = c.WL_CONNECT_FAILED
    · refine ⟨⟨254, g, [Event.wifiBegin g._ssid g._pwd]⟩, ?_, by simp [hf], ?_, ?_, ?_⟩
      · simp [begin, checkConnection_of_disconnected hdisconnected, hcam, hloop, hk1, hk2, hc,
          hf, hg]
        intro h
        exact absurd h.symm hstatus
      · intro h
        exact absurd h hc
      · intro _
        exact ⟨rfl, rfl⟩
      · simp [hdisconnected, hc]
    · refine ⟨⟨0, g, Event.wifiBegin g._ssid g._pwd :: debugPrint g⟩, ?_, by simp [hc, hf],
        ?_, ?_, ?_⟩
      · simp [begin, checkConnection_of_disconnected hdisconnected, hcam, hloop, hk1, hk2, hc,
          hf, hg]
      · intro h
        exact absurd h hc
      · intro h
        exact absurd h hf
      · simp [hdisconnected, hc]

/-- Witness of C9: on a fresh HERO3 client, a WiFi status that is idle twice
and then failed makes `begin` return 254 once it may make three calls. -/
theorem C9_begin_follows_association_witness :
    ∃ r, begin sampleConsts { sampleEnv 200 4 with wifiStatus := fun i => if i < 2 then 0 else 4 } 3
        (GoProControl.GoProControl sampleConsts "ssid" "pwd" 3) = some r ∧
      r.trace = Event.wifiBegin "ssid" "pwd" ::
        (if 4 = sampleConsts.WL_CONNECTED ∨ 4 = sampleConsts.WL_CONNECT_FAILED then []
          else debugPrint (GoProControl.GoProControl sampleConsts "ssid" "pwd" 3)) ∧
      (4 = sampleConsts.WL_CONNECTED → r.ret = 1 ∧ r.state =
        { GoProControl.GoProControl sampleConsts "ssid" "pwd" 3 with _connected := true }) ∧
      (4 = sampleConsts.WL_CONNECT_FAILED → r.ret = 254 ∧
        r.state = GoProControl.GoProControl sampleConsts "ssid" "pwd" 3) ∧
      (r.state._connected = true ↔ 4 = sampleConsts.WL_CONNECTED) :=
  C9_begin_follows_association sampleConsts
    { sampleEnv 200 4 with wifiStatus := fun i => if i < 2 then 0 else 4 } 3 2 4
    (GoProControl.GoProControl sampleConsts "ssid" "pwd" 3) rfl (by decide) (by decide)
    (by decide) (by decide)
    (fun i hi => by simp [sampleEnv, sampleConsts, hi])
    (fun i hi => by simp [sampleEnv, Nat.not_lt.mpr hi])
    (by decide) (by decide)

/-- C10. Out-of-domain timelapse interval is rejected: for every value outside
0.5, 1, 5, 10, 30, 60 (such as 7) and every camera model for which a dialect is
selected, `setTimeLapseInterval` on a connected client returns 255
(InvalidOption), which is not the value 1 of Accepted, makes no capability
call and leaves the client unchanged. -/
theorem C10_setTimeLapseInterval_out_of_domain (c : Consts) (e : Env) (g : GoProControl)
    (option : CFloat) (hconnected : g._connected = true)
    (_hsupported : (dialect c g._camera).isSome = true) (_hout : option ∉ timeLapseDomain) :
    setTimeLapseInterval c e g option = ⟨255, g, []⟩ ∧
    (setTimeLapseInterval c e g option).ret ≠ uint8 1 ∧
    dispatched (setTimeLapseInterval c e g option) = [] := by
  rw [setTimeLapseInterval_of_connected c e g option hconnected]
  simp [dispatched]

/-- Witness of C10: the interval 7 on a connected HERO4 client. -/
theorem C10_setTimeLapseInterval_out_of_domain_witness :
    setTimeLapseInterval sampleConsts (sampleEnv 200 3)
      (connectedClient sampleConsts "ssid" "secret" 4 7) (CFloat.finite 7) =
    ⟨255, connectedClient sampleConsts "ssid" "secret" 4 7, []⟩ :=
  (C10_setTimeLapseInterval_out_of_domain sampleConsts (sampleEnv 200 3)
    (connectedClient sampleConsts "ssid" "secret" 4 7) (CFloat.finite 7) rfl (by decide)
    (by norm_num [timeLapseDomain])).1

/-- C11 (the code at the failing inputs). The claim asks that an in-domain
timelapse interval be encoded and dispatched; the code rejects it: the
interval 5 on a connected HERO3 client and the interval 0.5 on a connected
HERO4 client both return 255 (InvalidOption) and dispatch nothing, where the
claim has the requests ending in "TI?t=secret&p=%05" and "setting/5/0". -/
theorem C11_setTimeLapseInterval_in_domain_rejected :
    setTimeLapseInterval sampleConsts (sampleEnv 200 3)
        (connectedClient sampleConsts "ssid" "secret" 3 7) (CFloat.finite 5) =
      ⟨255, connectedClient sampleConsts "ssid" "secret" 3 7, []⟩ ∧
    dispatched (setTimeLapseInterval sampleConsts (sampleEnv 200 3)
        (connectedClient sampleConsts "ssid" "secret" 3 7) (CFloat.finite 5)) = [] ∧
    setTimeLapseInterval sampleConsts (sampleEnv 200 3)
        (connectedClient sampleConsts "ssid" "secret" 4 7) (CFloat.finite (1/2)) =
      ⟨255, connectedClient sampleConsts "ssid" "secret" 4 7, []⟩ ∧
    dispatched (setTimeLapseInterval sampleConsts (sampleEnv 200 3)
        (connectedClient sampleConsts "ssid" "secret" 4 7) (CFloat.finite (1/2))) = [] := by
  rw [setTimeLapseInterval_of_connected _ _ _ _ rfl, setTimeLapseInterval_of_connected _ _ _ _ rfl]
  simp [dispatched]

/-- C12 (counterexample). On a connected HERO4 client `setContinuousShot(7)`
returns 255, not the 0 the claim states for every count on a modern model. -/
theorem C12_setContinuousShot_modern_counterexample :
    (setContinuousShot sampleConsts (sampleEnv 200 3)
      (connectedClient sampleConsts "ssid" "secret" 4 7) 7).ret = 255 ∧
    (setContinuousShot sampleConsts (sampleEnv 200 3)
      (connectedClient sampleConsts "ssid" "secret" 4 7) 7).ret ≠ 0 := by
  rw [setContinuousShot_of_connected _ _ _ _ rfl]
  simp

/-- C12 (amended). On a connected client of either generation,
`setContinuousShot` with a count outside 0, 3, 5, 10 returns 255
(InvalidOption), makes no capability call and leaves the client unchanged:
the validity check comes before the choice of dialect. -/
theorem C12_setContinuousShot_out_of_domain (c : Consts) (e : Env) (g : GoProControl)
    (option : Nat) (hconnected : g._connected = true) (_hout : option ∉ burstDomain) :
    setContinuousShot c e g option = ⟨255, g, []⟩ ∧
    dispatched (setContinuousShot c e g option) = [] := by
  rw [setContinuousShot_of_connected c e g option hconnected]
  simp [dispatched]

/-- Witness of C12 (amended): the count 7 on a connected HERO3 client. -/
theorem C12_setContinuousShot_out_of_domain_witness :
    setContinuousShot sampleConsts (sampleEnv 200 3)
      (connectedClient sampleConsts "ssid" "secret" 3 7) 7 =
    ⟨255, connectedClient sampleConsts "ssid" "secret" 3 7, []⟩ :=
  (C12_setContinuousShot_out_of_domain sampleConsts (sampleEnv 200 3)
    (connectedClient sampleConsts "ssid" "secret" 3 7) 7 rfl (by decide)).1

/-- C13. Outcome pass-through with a single send attempt: for each of the
seven setting operations with an option of the dialect's table, and for
`shoot`, `stopShoot`, `turnOff`, `localizationOn`, `localizationOff`,
`deleteLast` and `deleteAll`, on a connected client of a model for which a
dialect is selected there is one request string such that, whatever the
transport does, the call returns exactly what `sendRequest` returns for that
string (value, client and capability calls); the transport is invoked exactly
once and at most one GET is issued. -/
theorem C13_outcome_pass_through (c : Consts) (g : GoProControl) (d : Dialect)
    (op : Operation) (hconnected : g._connected = true)
    (hdialect : dialect c g._camera = some d) (hop : op.inTable c d) :
    ∃ request, ∀ e, call c e g op = sendRequest c e g request ∧
      connects (call c e g op) = 1 ∧ (dispatched (call c e g op)).length ≤ 1 := by
  obtain ⟨request, h⟩ := call_eq_sendRequest c g d op hconnected hdialect hop
  refine ⟨request, fun e => ⟨h e, ?_, ?_⟩⟩
  · rw [h e]
    exact (connects_sendRequest c e g request).1
  · rw [h e]
    exact (connects_sendRequest c e g request).2

/-- Witness of C13: `setMode(VIDEO_MODE)` on a connected HERO3 client. -/
theorem C13_outcome_pass_through_witness :
    ∃ request, ∀ e,
      call sampleConsts e (connectedClient sampleConsts "ssid" "secret" 3 7)
          (Operation.setMode 1) =
        sendRequest sampleConsts e (connectedClient sampleConsts "ssid" "secret" 3 7) request ∧
      connects (call sampleConsts e (connectedClient sampleConsts "ssid" "secret" 3 7)
          (Operation.setMode 1)) = 1 ∧
      (dispatched (call sampleConsts e (connectedClient sampleConsts "ssid" "secret" 3 7)
          (Operation.setMode 1))).length ≤ 1 :=
  C13_outcome_pass_through sampleConsts (connectedClient sampleConsts "ssid" "secret" 3 7)
    Dialect.legacy (Operation.setMode 1) rfl (by decide)
    (by simp [Operation.inTable, Setting.cases, Setting.table, setMode_HERO3, sampleConsts])

/-- C14. `end` always leaves the client disconnected: after `end` the client
is disconnected in every case; on a connected client `end` stops the
transport and disconnects the WiFi, and changes nothing but `_connected`; on a
disconnected client it makes no capability call and changes no member; `end`
after `end` leaves the client of a single `end` and makes no further call. -/
theorem C14_end_disconnects (g : GoProControl) :
    («end» g).1._connected = false ∧
    (g._connected = true →
      «end» g = ({ g with _connected := false }, [Event.clientStop, Event.wifiDisconnect])) ∧
    (g._connected = false → «end» g = (g, [])) ∧
    «end» («end» g).1 = ((«end» g).1, []) := by
  cases hc : g._connected with
  | false =>
    have h0 : «end» g = (g, []) := by
      simp [«end», checkConnection_of_disconnected hc]
    simp [h0, hc]
  | true =>
    have h1 : «end» g =
        ({ g with _connected := false }, [Event.clientStop, Event.wifiDisconnect]) := by
      simp [«end», checkConnection_of_connected hc]
    have h2 : «end» { g with _connected := false } = ({ g with _connected := false }, []) := by
      simp [«end», checkConnection, getStatus]
    simp [h1, h2]

/-- Witness of C14: `end` on a connected HERO4 client. -/
theorem C14_end_disconnects_witness :
    «end» (connectedClient sampleConsts "ssid" "secret" 4 7) =
    ({ connectedClient sampleConsts "ssid" "secret" 4 7 with _connected := false },
      [Event.clientStop, Event.wifiDisconnect]) :=
  (C14_end_disconnects (connectedClient sampleConsts "ssid" "secret" 4 7)).2.1 rfl

/-- C15. `keepAlive` is a no-op on the session: for every client, camera
model and clock value, whether or not the keep-alive interval has elapsed,
`keepAlive` makes no capability call and leaves the client, in particular
`_connected` and `_last_request`, unchanged; it returns 0 when the client is
disconnected or when the unsigned difference `millis() - _last_request` is at
most `KEEP_ALIVE`, in particular when the clock has not wrapped and the time
elapsed is at most `KEEP_ALIVE`. -/
theorem C15_keepAlive_no_op (c : Consts) (e : Env) (g : GoProControl) :
    (keepAlive c e g).state = g ∧ (keepAlive c e g).trace = [] ∧
    dispatched (keepAlive c e g) = [] ∧
    (g._connected = false → (keepAlive c e g).ret = 0) ∧
    (uint32sub e.millis g._last_request ≤ c.KEEP_ALIVE → (keepAlive c e g).ret = 0) ∧
    (g._last_request ≤ e.millis → e.millis < 4294967296 →
      e.millis - g._last_request ≤ c.KEEP_ALIVE → (keepAlive c e g).ret = 0) := by
  have hframe : (keepAlive c e g).state = g ∧ (keepAlive c e g).trace = [] := by
    unfold keepAlive
    split_ifs <;> simp [ret]
  have helapsed : uint32sub e.millis g._last_request ≤ c.KEEP_ALIVE →
      (keepAlive c e g).ret = 0 := by
    intro h
    unfold keepAlive
    split_ifs <;> simp [ret]
  refine ⟨hframe.1, hframe.2, by simp [dispatched, hframe.2], ?_, helapsed, ?_⟩
  · intro h
    simp [keepAlive, checkConnection_of_disconnected h, ret]
  · intro h1 h2 h3
    apply helapsed
    have h4 : uint32sub e.millis g._last_request = e.millis - g._last_request := by
      unfold uint32sub
      omega
    rw [h4]
    exact h3

/-- Witness of C15: on a connected client whose last request was made at
time 7, `keepAlive` at time 1000 with `KEEP_ALIVE` 2500 returns 0. -/
theorem C15_keepAlive_no_op_witness :
    (keepAlive sampleConsts (sampleEnv 200 3)
      (connectedClient sampleConsts "ssid" "secret" 4 7)).ret = 0 :=
  (C15_keepAlive_no_op sampleConsts (sampleEnv 200 3)
    (connectedClient sampleConsts "ssid" "secret" 4 7)).2.2.2.2.2 (by decide) (by decide)
    (by decide)

/-- C16. `isOn` always reports true, so `turnOn` never dispatches: for every
client `isOn` returns 1, so the test `!isOn()` that guards the operations is
never true; `turnOn`, for every client and camera model, returns 0, makes no
capability call and leaves the client unchanged, so no power-on request is
ever sent. -/
theorem C16_isOn_constant (c : Consts) (e : Env) (g : GoProControl) :
    isOn g = 1 ∧ ¬ (isOn g = 0) ∧ turnOn c e g = ⟨0, g, []⟩ ∧
    connects (turnOn c e g) = 0 ∧ dispatched (turnOn c e g) = [] := by
  have hrun : turnOn c e g = ⟨0, g, []⟩ := by
    unfold turnOn
    split_ifs <;> simp_all [ret, isOn]
  rw [hrun]
  simp [isOn, connects, dispatched]

/-- C17 (counterexample). The value `setMode` returns for an option that is
no case of its table equals the value `sendRequest` returns for status 403:
both are 255, so the two outcomes are not told apart by the return value. -/
theorem C17_invalid_option_is_auth_rejected_counterexample :
    (setMode sampleConsts (sampleEnv 200 3)
      (connectedClient sampleConsts "ssid" "secret" 3 7) 0).ret =
    (sendRequest sampleConsts (sampleEnv 403 3)
      (connectedClient sampleConsts "ssid" "secret" 3 7) "x").ret := by
  decide

/-- C17 (amended). The value a setting operation returns for an option outside
its table is 255; it differs from the values `sendRequest` returns for
Accepted (1), CommandFailed (254), UnknownError (253) and NotConnected (0),
and it equals the value `sendRequest` returns for AuthRejected (status 403). -/
theorem C17_invalid_option_return_value (c : Consts) (e1 e2 : Env) (g : GoProControl)
    (s : Setting) (d : Dialect) (option : Nat) (request : String)
    (hconnected : g._connected = true) (hdialect : dialect c g._camera = some d)
    (hoption : option ∉ s.cases c d) :
    (call c e1 g (s.op option)).ret = 255 ∧
    (sendRequest c { e2 with connect := true, responseStatusCode := 403 } g request).ret =
      (call c e1 g (s.op option)).ret ∧
    (sendRequest c { e2 with connect := true, responseStatusCode := 200 } g request).ret ≠
      (call c e1 g (s.op option)).ret ∧
    (sendRequest c { e2 with connect := true, responseStatusCode := 410 } g request).ret ≠
      (call c e1 g (s.op option)).ret ∧
    (∀ status, status < 65536 → status ≠ 200 → status ≠ 403 → status ≠ 410 →
      (sendRequest c { e2 with connect := true, responseStatusCode := status } g request).ret ≠
        (call c e1 g (s.op option)).ret) ∧
    (sendRequest c { e2 with connect := false } g request).ret ≠
      (call c e1 g (s.op option)).ret := by
  have hret : (call c e1 g (s.op option)).ret = 255 := by
    rw [call_invalid_option c e1 g s d option hconnected hdialect hoption]
    simp [printRet]
  rw [hret]
  refine ⟨rfl, ?_, ?_, ?_, ?_, ?_⟩
  · simp [sendRequest, uint16]
  · simp [sendRequest, uint16]
  · simp [sendRequest, uint16]
  · intro status hlt h200 h403 h410
    have hmod : status % 65536 = status := Nat.mod_eq_of_lt hlt
    simp [sendRequest, uint16, hmod, h200, h403, h410]
  · simp [sendRequest]

/-- Witness of C17 (amended): `setFrameRate` with `FR_90` on a connected HERO3
client returns 255. -/
theorem C17_invalid_option_return_value_witness :
    (call sampleConsts (sampleEnv 200 3) (connectedClient sampleConsts "ssid" "secret" 3 7)
      (Operation.setFrameRate 4)).ret = 255 :=
  (C17_invalid_option_return_value sampleConsts (sampleEnv 200 3) (sampleEnv 200 3)
    (connectedClient sampleConsts "ssid" "secret" 3 7) Setting.setFrameRate Dialect.legacy 4
    "x" rfl (by decide) (by decide)).1

/-- C18 (counterexample). On a freshly constructed HERO2 client `begin`
returns 255, but `shoot` returns 0, not 255. -/
theorem C18_unsupported_model_operation_counterexample :
    begin sampleConsts (sampleEnv 200 3) 1 (GoProControl.GoProControl sampleConsts "ssid" "pwd" 2) =
      some ⟨255, GoProControl.GoProControl sampleConsts "ssid" "pwd" 2, []⟩ ∧
    (call sampleConsts (sampleEnv 200 3) (GoProControl.GoProControl sampleConsts "ssid" "pwd" 2)
      Operation.shoot).ret = 0 ∧
    (call sampleConsts (sampleEnv 200 3) (GoProControl.GoProControl sampleConsts "ssid" "pwd" 2)
      Operation.shoot).ret ≠ 255 := by
  decide

/-- C18 (amended). For every camera model at or below HERO2, a freshly
constructed client is still the freshly constructed, disconnected client after
any sequence of calls of `begin`, `end` and the operations, and no capability
call has been made; on it `begin` returns 255 (UnsupportedModel), and every
operation returns 0, the value of a call on a disconnected client, makes no
capability call and dispatches no request. -/
theorem C18_unsupported_model_never_dispatches (c : Consts) (ssid pwd : String)
    (camera : Nat) (steps : List Step) (hmodel : camera ≤ c.HERO2) :
    runSteps c (GoProControl.GoProControl c ssid pwd camera) steps =
      some (GoProControl.GoProControl c ssid pwd camera, []) ∧
    (∀ e fuel, begin c e fuel (GoProControl.GoProControl c ssid pwd camera) =
      some ⟨255, GoProControl.GoProControl c ssid pwd camera, []⟩) ∧
    (∀ e op, call c e (GoProControl.GoProControl c ssid pwd camera) op =
      ⟨0, GoProControl.GoProControl c ssid pwd camera, []⟩) ∧
    (∀ e op, dispatched (call c e (GoProControl.GoProControl c ssid pwd camera) op) = []) := by
  have hdis : (GoProControl.GoProControl c ssid pwd camera)._connected = false := rfl
  have hcam : (GoProControl.GoProControl c ssid pwd camera)._camera ≤ c.HERO2 := hmodel
  refine ⟨runSteps_of_unsupported c _ steps hdis hcam,
    fun e fuel => begin_of_unsupported c e fuel _ hdis hcam,
    fun e op => call_of_disconnected c e _ op hdis, fun e op => ?_⟩
  rw [call_of_disconnected c e _ op hdis]
  rfl

/-- Witness of C18 (amended): a HERO2 client after `begin`, `shoot`, `end` and
`deleteAll`. -/
theorem C18_unsupported_model_never_dispatches_witness :
    runSteps sampleConsts (GoProControl.GoProControl sampleConsts "ssid" "pwd" 2)
      [Step.begin (sampleEnv 200 3) 5, Step.op (sampleEnv 200 3) Operation.shoot, Step.«end»,
        Step.op (sampleEnv 200 3) Operation.deleteAll] =
    some (GoProControl.GoProControl sampleConsts "ssid" "pwd" 2, []) :=
  (C18_unsupported_model_never_dispatches sampleConsts "ssid" "pwd" 2
    [Step.begin (sampleEnv 200 3) 5, Step.op (sampleEnv 200 3) Operation.shoot, Step.«end»,
      Step.op (sampleEnv 200 3) Operation.deleteAll] (by decide)).1

/-- C19. Modern-dialect requests carry no credential: for a camera model at
or above HERO4 (the header ranking HERO3 below HERO4), every operation with
every argument makes the same capability calls, dispatches the same request
and returns the same value whatever the password of the client; whereas every
request a HERO3 client dispatches contains "?t=" followed by the password. -/
theorem C19_modern_request_without_credential (c : Consts) (e : Env) (g : GoProControl)
    (p1 p2 : String) (op : Operation) (horder : c.HERO3 < c.HERO4)
    (hmodern : c.HERO4 ≤ g._camera) :
    (call c e { g with _pwd := p1 } op).trace = (call c e { g with _pwd := p2 } op).trace ∧
    dispatched (call c e { g with _pwd := p1 } op) =
      dispatched (call c e { g with _pwd := p2 } op) ∧
    (call c e { g with _pwd := p1 } op).ret = (call c e { g with _pwd := p2 } op).ret ∧
    (∀ g3 request, g3._camera = c.HERO3 → request ∈ dispatched (call c e g3 op) →
      ∃ a b, request = a ++ "?t=" ++ g3._pwd ++ b) := by
  have hne : g._camera ≠ c.HERO3 := by omega
  have hfree := modern_call_password_free c e g p1 p2 op hne hmodern
  refine ⟨hfree.2, ?_, hfree.1, ?_⟩
  · simp only [dispatched, hfree.2]
  · intro g3 request hlegacy hmem
    exact legacy_request_has_credential c e g3 op hlegacy request hmem

/-- Witness of C19: `deleteLast` on connected HERO4 clients that differ in
their password. -/
theorem C19_modern_request_without_credential_witness :
    dispatched (call sampleConsts (sampleEnv 200 3)
      { connectedClient sampleConsts "ssid" "secret" 4 7 with _pwd := "one" }
      Operation.deleteLast) =
    dispatched (call sampleConsts (sampleEnv 200 3)
      { connectedClient sampleConsts "ssid" "secret" 4 7 with _pwd := "two" }
      Operation.deleteLast) :=
  (C19_modern_request_without_credential sampleConsts (sampleEnv 200 3)
    (connectedClient sampleConsts "ssid" "secret" 4 7) "one" "two" Operation.deleteLast
    (by decide) (by decide)).2.1

/-- C20. The examples documented in the constructor hold: on a connected
client of a model at or above HERO4 with host H, `setMode(VIDEO_MODE)` hands
`sendRequest` exactly "http://" + H + "/gp/gpControl/command/mode?p=0" and
`setVideoResolution(VR_1080p)` exactly "http://" + H + "/gp/gpControl/setting/2/9"
(the case labels of that `switch` being distinct); when the transport
connects, that string is the one request dispatched. -/
theorem C20_constructor_examples (c : Consts) (e : Env) (ssid pwd : String) (camera t : Nat)
    (horder : c.HERO3 < c.HERO4) (hmodern : c.HERO4 ≤ camera)
    (hlabels : c.VR_1080p ≠ c.VR_4K ∧ c.VR_1080p ≠ c.VR_2K ∧ c.VR_1080p ≠ c.VR_2K_SuperView ∧
      c.VR_1080p ≠ c.VR_1440p ∧ c.VR_1080p ≠ c.VR_1080p_SuperView) :
    setMode c e (connectedClient c ssid pwd camera t) c.VIDEO_MODE =
      sendRequest c e (connectedClient c ssid pwd camera t)
        ("http://" ++ c._host ++ "/gp/gpControl/command/mode?p=0") ∧
    dispatched (setMode c { e with connect := true } (connectedClient c ssid pwd camera t)
      c.VIDEO_MODE) = ["http://" ++ c._host ++ "/gp/gpControl/command/mode?p=0"] ∧
    setVideoResolution c e (connectedClient c ssid pwd camera t) c.VR_1080p =
      sendRequest c e (connectedClient c ssid pwd camera t)
        ("http://" ++ c._host ++ "/gp/gpControl/setting/2/9") ∧
    dispatched (setVideoResolution c { e with connect := true }
      (connectedClient c ssid pwd camera t) c.VR_1080p) =
      ["http://" ++ c._host ++ "/gp/gpControl/setting/2/9"] := by
  have hne : camera ≠ c.HERO3 := by omega
  obtain ⟨l1, l2, l3, l4, l5⟩ := hlabels
  have hmode : "/gp/gpControl/command/mode?p=0" = "/gp/gpControl/" ++ ("command/mode?p=" ++ "0") := by
    decide
  have hres : "/gp/gpControl/setting/2/9" = "/gp/gpControl/" ++ ("setting/2/" ++ "9") := by
    decide
  have h1 : ∀ e1 : Env, setMode c e1 (connectedClient c ssid pwd camera t) c.VIDEO_MODE =
      sendRequest c e1 (connectedClient c ssid pwd camera t)
        ("http://" ++ c._host ++ "/gp/gpControl/command/mode?p=0") := by
    intro e1
    rw [hmode]
    simp [setMode, connectedClient, GoProControl.GoProControl, checkConnection, getStatus, isOn,
      String.append_assoc, hne, hmodern, setMode_HERO4, switch]
  have h2 : ∀ e1 : Env, setVideoResolution c e1 (connectedClient c ssid pwd camera t) c.VR_1080p =
      sendRequest c e1 (connectedClient c ssid pwd camera t)
        ("http://" ++ c._host ++ "/gp/gpControl/setting/2/9") := by
    intro e1
    rw [hres]
    simp [setVideoResolution, connectedClient, GoProControl.GoProControl, checkConnection,
      getStatus, isOn, String.append_assoc, hne, hmodern, setVideoResolution_HERO4, switch, l1,
      l2, l3, l4, l5]
  refine ⟨h1 e, ?_, h2 e, ?_⟩
  · rw [h1, dispatched_sendRequest]
  · rw [h2, dispatched_sendRequest]

/-- Witness of C20: `setVideoResolution(VR_1080p)` on a connected HERO4 client
of the sample constants. -/
theorem C20_constructor_examples_witness :
    dispatched (setVideoResolution sampleConsts { sampleEnv 200 3 with connect := true }
      (connectedClient sampleConsts "ssid" "secret" 4 7) sampleConsts.VR_1080p) =
    ["http://" ++ sampleConsts._host ++ "/gp/gpControl/setting/2/9"] :=
  (C20_constructor_examples sampleConsts (sampleEnv 200 3) "ssid" "secret" 4 7 (by decide)
    (by decide) (by decide)).2.2.2

/-- C21. Every dispatched request follows its dialect's URL scheme: in a
session of any calls of `begin`, `end` and the operations, with any
arguments, on a freshly constructed client, every request handed to
`_http.get` by a HERO3 client is "http://" + host + "/camera/" followed by a
two-letter command, "?t=" and the password, and does not start with the modern
base URL; every request of a client of a model at or above HERO4 is
"http://" + host + "/gp/gpControl/" followed by "command/" or "setting/", and
does not start with the legacy base URL; and no request is the empty string,
for a model that is HERO3, at or above HERO4, or at or below HERO2, hence for
every model when the header numbers HERO2, HERO3 and HERO4 consecutively. -/
theorem C21_requests_follow_scheme (c : Consts) (ssid pwd : String) (camera : Nat)
    (steps : List Step) (g : GoProControl) (tr : List Event) (request : String)
    (horder : c.HERO3 < c.HERO4)
    (hrun : runSteps c (GoProControl.GoProControl c ssid pwd camera) steps = some (g, tr))
    (hmem : Event.httpGet request ∈ tr) :
    (camera = c.HERO3 →
      (∃ cmd b, cmd.length = 2 ∧
        request = "http://" ++ c._host ++ "/camera/" ++ cmd ++ "?t=" ++ pwd ++ b) ∧
      ¬ ∃ y, request = "http://" ++ c._host ++ "/gp/gpControl/" ++ y) ∧
    (c.HERO4 ≤ camera →
      ((∃ b, request = "http://" ++ c._host ++ "/gp/gpControl/" ++ "command/" ++ b) ∨
        (∃ b, request = "http://" ++ c._host ++ "/gp/gpControl/" ++ "setting/" ++ b)) ∧
      ¬ ∃ y, request = "http://" ++ c._host ++ "/camera/" ++ y) ∧
    (camera = c.HERO3 ∨ c.HERO4 ≤ camera ∨ camera ≤ c.HERO2 → request ≠ "") ∧
    (c.HERO3 ≤ c.HERO2 + 1 → c.HERO4 ≤ c.HERO3 + 1 → request ≠ "") := by
  obtain ⟨gi, e, op, hu, hp, hcam, hd⟩ :=
    runSteps_requests c steps _ g tr hrun request hmem
  have hlegacy : camera = c.HERO3 →
      (∃ cmd b, cmd.length = 2 ∧
        request = "http://" ++ c._host ++ "/camera/" ++ cmd ++ "?t=" ++ pwd ++ b) := by
    intro h3
    have hurl : gi._url = "http://" ++ c._host ++ "/camera/" := by
      rw [hu]
      simp [GoProControl.GoProControl, h3]
    obtain ⟨cmd, b, hlen, hreq⟩ := legacy_request_form c e gi op (hcam.trans h3) request hd
    refine ⟨cmd, b, hlen, ?_⟩
    rw [hreq, hurl, hp]
    rfl
  have hmodern : c.HERO4 ≤ camera →
      ((∃ b, request = "http://" ++ c._host ++ "/gp/gpControl/" ++ "command/" ++ b) ∨
        (∃ b, request = "http://" ++ c._host ++ "/gp/gpControl/" ++ "setting/" ++ b)) := by
    intro h4
    have hne : camera ≠ c.HERO3 := by omega
    have hurl : gi._url = "http://" ++ c._host ++ "/gp/gpControl/" := by
      rw [hu]
      simp [GoProControl.GoProControl, hne, h4]
    have h3i : gi._camera ≠ c.HERO3 := by
      rw [hcam]
      exact hne
    have h4i : gi._camera ≥ c.HERO4 := by
      rw [hcam]
      exact h4
    rcases modern_request_form c e gi op h3i h4i request hd with ⟨b, hb⟩ | ⟨b, hb⟩
    · exact Or.inl ⟨b, by rw [hb, hurl]⟩
    · exact Or.inr ⟨b, by rw [hb, hurl]⟩
  have hnonempty : camera = c.HERO3 ∨ c.HERO4 ≤ camera ∨ camera ≤ c.HERO2 → request ≠ "" := by
    rintro (h3 | h4 | h2)
    · obtain ⟨cmd, b, _, hreq⟩ := hlegacy h3
      rw [hreq]
      simp only [String.append_assoc]
      exact request_ne_empty c._host _
    · rcases hmodern h4 with ⟨b, hb⟩ | ⟨b, hb⟩ <;>
        · rw [hb]
          simp only [String.append_assoc]
          exact request_ne_empty c._host _
    · have hnone := runSteps_of_unsupported c (GoProControl.GoProControl c ssid pwd camera)
        steps rfl h2
      rw [hnone] at hrun
      simp only [Option.some.injEq, Prod.mk.injEq] at hrun
      rw [← hrun.2] at hmem
      simp at hmem
  refine ⟨fun h3 => ⟨hlegacy h3, ?_⟩, fun h4 => ⟨hmodern h4, ?_⟩, hnonempty, ?_⟩
  · rintro ⟨y, hy⟩
    obtain ⟨cmd, b, _, hreq⟩ := hlegacy h3
    rw [hreq] at hy
    simp only [String.append_assoc] at hy
    exact scheme_prefix_disjoint c._host _ y (by simpa only [String.append_assoc] using hy)
  · rintro ⟨y, hy⟩
    rcases hmodern h4 with ⟨b, hb⟩ | ⟨b, hb⟩ <;>
      · rw [hb] at hy
        simp only [String.append_assoc] at hy
        exact scheme_prefix_disjoint c._host y _ (by simpa only [String.append_assoc] using hy.symm)
  · intro h23 h34
    apply hnonempty
    omega

/-- Witness of C21: the request of `shoot` in the session `begin`, `shoot` on
a HERO3 client of the sample constants. -/
theorem C21_requests_follow_scheme_witness :
    ∃ cmd b, cmd.length = 2 ∧
      "http://10.5.5.9/camera/SH?t=pwd&p=%01" =
        "http://" ++ sampleConsts._host ++ "/camera/" ++ cmd ++ "?t=" ++ "pwd" ++ b :=
  ((C21_requests_follow_scheme sampleConsts "ssid" "pwd" 3
    [Step.begin (sampleEnv 200 3) 2, Step.op (sampleEnv 200 3) Operation.shoot]
    { GoProControl.GoProControl sampleConsts "ssid" "pwd" 3 with
      _connected := true, _last_request := 1000 }
    [Event.wifiBegin "ssid" "pwd", Event.clientConnect "10.5.5.9" 80,
      Event.httpGet "http://10.5.5.9/camera/SH?t=pwd&p=%01"]
    "http://10.5.5.9/camera/SH?t=pwd&p=%01" (by decide) (by decide) (by decide)).1 rfl).1

/-- C22 (the code at the failing input). The claim asks that the request of
`confirmPairing` differ from those of `deleteLast` and `deleteAll`; on a
connected HERO3 client `confirmPairing` dispatches the very request of
`deleteLast`, "http://10.5.5.9/camera/DL?t=secret", and the two calls have the
same outcome; only the request of `deleteAll` differs. -/
theorem C22_confirmPairing_is_deleteLast_on_HERO3 :
    dispatched (confirmPairing sampleConsts (sampleEnv 200 3)
        (connectedClient sampleConsts "ssid" "secret" 3 7)) =
      ["http://10.5.5.9/camera/DL?t=secret"] ∧
    dispatched (deleteLast sampleConsts (sampleEnv 200 3)
        (connectedClient sampleConsts "ssid" "secret" 3 7)) =
      ["http://10.5.5.9/camera/DL?t=secret"] ∧
    confirmPairing sampleConsts (sampleEnv 200 3)
        (connectedClient sampleConsts "ssid" "secret" 3 7) =
      deleteLast sampleConsts (sampleEnv 200 3)
        (connectedClient sampleConsts "ssid" "secret" 3 7) ∧
    dispatched (deleteAll sampleConsts (sampleEnv 200 3)
        (connectedClient sampleConsts "ssid" "secret" 3 7)) =
      ["http://10.5.5.9/camera/DA?t=secret"] := by
  decide

/-- C23 (the code at the failing input). The claim asks that on a model at or
above HERO4 `deleteAll` build the base URL followed by
"command/storage/delete/all"; on a connected HERO4 client `deleteLast`
dispatches "http://10.5.5.9/gp/gpControl/command/storage/delete/last", but
`deleteAll` dispatches
"http://10.5.5.9/gp/gpControl/command/command/storage/delete/all", which is
not the request of the claim. -/
theorem C23_deleteAll_modern_request :
    dispatched (deleteLast sampleConsts (sampleEnv 200 3)
        (connectedClient sampleConsts "ssid" "secret" 4 7)) =
      ["http://10.5.5.9/gp/gpControl/command/storage/delete/last"] ∧
    dispatched (deleteAll sampleConsts (sampleEnv 200 3)
        (connectedClient sampleConsts "ssid" "secret" 4 7)) =
      ["http://10.5.5.9/gp/gpControl/command/command/storage/delete/all"] ∧
    dispatched (deleteAll sampleConsts (sampleEnv 200 3)
        (connectedClient sampleConsts "ssid" "secret" 4 7)) ≠
      ["http://10.5.5.9/gp/gpControl/command/storage/delete/all"] := by
  decide

end GoPro
